import Mathlib

/-!
Verification development for the PBX/IVR self-service system
(`database_handler.py` and `pbx_server.py`).

The Python source is shallowly embedded: the SQLite tables become lists of
typed rows inside a `DB` state, Python dicts become association lists,
`datetime.date` values become day numbers (days since 1970-01-01) that are
serialized to ISO strings exactly where the code stores dates in the
database, and each handler method becomes an explicit state-passing
function.  Timestamps, the current date and the current year are threaded
through as explicit parameters.
-/

namespace IVR

/-! ### Python dictionaries as association lists -/

/-- A Python `dict` with `String` keys: an association list where `set`
replaces the first occurrence of the key in place (preserving insertion
order) and appends otherwise, exactly like CPython dict assignment. -/
abbrev Dict (α : Type) := List (String × α)

/-- `d[k] = v` for a Python dict: replace in place or append. -/
def dset {α : Type} (d : Dict α) (k : String) (v : α) : Dict α :=
  match d with
  | [] => [(k, v)]
  | (k', v') :: rest => if k' = k then (k, v) :: rest else (k', v') :: dset rest k v

/-- `d.get(k)` for a Python dict: first binding of the key, if any. -/
def dget {α : Type} (d : Dict α) (k : String) : Option α :=
  (d.find? (fun p => p.1 = k)).map (fun p => p.2)

/-- `d.update(u)` for a Python dict: shallow merge, later values overwrite
same-named earlier values (applied left to right over `u`). -/
def dUpdate {α : Type} (d : Dict α) (u : Dict α) : Dict α :=
  u.foldl (fun acc p => dset acc p.1 p.2) d

/-! ### Python `int(...)` on strings -/

/-- Value of a nonempty all-digit character list. -/
def digitsVal : List Char → Option Nat
  | [] => none
  | l =>
    if l.all Char.isDigit then
      some (l.foldl (fun acc c => acc * 10 + (c.toNat - 48)) 0)
    else none

/-- Python `int(s)` (model): optional sign followed by decimal digits;
anything else raises `ValueError`, modelled as `none`.  (Whitespace and
underscore leniencies of CPython are not exercised by DTMF input.) -/
def pyInt (s : String) : Option Int :=
  match s.toList with
  | [] => none
  | '-' :: rest => (digitsVal rest).map (fun n => -(n : Int))
  | '+' :: rest => (digitsVal rest).map (fun n => (n : Int))
  | l => (digitsVal l).map (fun n => (n : Int))

/-- Python truthiness of an optional string column value
(`None` and the empty string are falsy). -/
def pyTruthy : Option String → Bool
  | none => false
  | some s => s ≠ ""

/-- Python `s.startswith(pre)` (structurally recursive over the character
lists). -/
def pyStartswith (s pre : String) : Bool := pre.toList.isPrefixOf s.toList

/-! ### Calendar: `datetime.date` as days since 1970-01-01 -/

def isLeap (y : Int) : Bool :=
  (y % 4 == 0 && y % 100 != 0) || (y % 400 == 0)

def daysInMonth (y m : Int) : Int :=
  if m = 2 then (if isLeap y then 29 else 28)
  else if m = 4 ∨ m = 6 ∨ m = 9 ∨ m = 11 then 30
  else 31

/-- Civil date to day number (days since 1970-01-01), the standard
days-from-civil algorithm; models `datetime.date` ordering/arithmetic. -/
def daysFromCivil (y m d : Int) : Int :=
  let y' := if m ≤ 2 then y - 1 else y
  let era := (if 0 ≤ y' then y' else y' - 399) / 400
  let yoe := y' - era * 400
  let doy := (153 * (if 2 < m then m - 3 else m + 9) + 2) / 5 + d - 1
  let doe := yoe * 365 + yoe / 4 - yoe / 100 + doy
  era * 146097 + doe - 719468

/-- Day number back to a civil `(year, month, day)` triple. -/
def civilFromDays (z : Int) : Int × Int × Int :=
  let z' := z + 719468
  let era := (if 0 ≤ z' then z' else z' - 146096) / 146097
  let doe := z' - era * 146097
  let yoe := (doe - doe / 1460 + doe / 36524 - doe / 146096) / 365
  let y := yoe + era * 400
  let doy := doe - (365 * yoe + yoe / 4 - yoe / 100)
  let mp := (5 * doy + 2) / 153
  let d := doy - (153 * mp + 2) / 5 + 1
  let m := if mp < 10 then mp + 3 else mp - 9
  (if m ≤ 2 then y + 1 else y, m, d)

/-- Zero-padded decimal rendering of a nonnegative integer. -/
def padNum (w : Nat) (n : Int) : String :=
  let s := toString n.toNat
  String.mk (List.replicate (w - s.length) '0') ++ s

/-- `str(datetime.date)`: the ISO `YYYY-MM-DD` rendering of a day number;
this is the TEXT form SQLite stores for a bound `date` value. -/
def isoDate (z : Int) : String :=
  let c := civilFromDays z
  padNum 4 c.1 ++ "-" ++ padNum 2 c.2.1 ++ "-" ++ padNum 2 c.2.2

/-- Shared year/month/day validity check used by both date parsers
(`datetime` rejects out-of-range components). -/
def validYMD (y m d : Int) : Bool :=
  1 ≤ y && y ≤ 9999 && 1 ≤ m && m ≤ 12 && 1 ≤ d && d ≤ daysInMonth y m

/-- `datetime.strptime(s, '%Y-%m-%d')` (model): digits-dash-digits-dash-digits
consuming the whole string, with `%Y` taking 1–4 digits and `%m`, `%d`
1–2 digits, validated as a real calendar date; result as a day number. -/
def parseDateStrptime (s : String) : Option Int :=
  let l := s.toList
  let ys := l.takeWhile Char.isDigit
  let r1 := l.dropWhile Char.isDigit
  match r1 with
  | '-' :: r2 =>
    let ms := r2.takeWhile Char.isDigit
    let r3 := r2.dropWhile Char.isDigit
    (match r3 with
    | '-' :: r4 =>
      let ds := r4.takeWhile Char.isDigit
      let r5 := r4.dropWhile Char.isDigit
      if r5 = [] && 1 ≤ ys.length && ys.length ≤ 4 && 1 ≤ ms.length && ms.length ≤ 2
          && 1 ≤ ds.length && ds.length ≤ 2 then
        match digitsVal ys, digitsVal ms, digitsVal ds with
        | some y, some m, some d =>
          if validYMD y m d then some (daysFromCivil y m d) else none
        | _, _, _ => none
      else none
    | _ => none)
  | _ => none

/-- Two fixed-width decimal digits. -/
def twoDigits : List Char → Option Nat
  | [a, b] => if a.isDigit && b.isDigit then some ((a.toNat - 48) * 10 + (b.toNat - 48)) else none
  | _ => none

/-- Validity of the optional time tail accepted by `fromisoformat`:
`HH:MM[:SS[.fff[fff]]]` with two-digit fields in range. -/
def validIsoTime (l : List Char) : Bool :=
  match twoDigits (l.take 2) with
  | none => false
  | some hh =>
    if hh ≥ 24 then false else
    match l.drop 2 with
    | ':' :: rest =>
      (match twoDigits (rest.take 2) with
      | none => false
      | some mm =>
        if mm ≥ 60 then false else
        match rest.drop 2 with
        | [] => true
        | ':' :: rest2 =>
          (match twoDigits (rest2.take 2) with
          | none => false
          | some ss =>
            if ss ≥ 60 then false else
            match rest2.drop 2 with
            | [] => true
            | '.' :: frac => (frac.length = 3 || frac.length = 6) && frac.all Char.isDigit
            | _ => false)
        | _ => false)
    | _ => false

/-- `datetime.fromisoformat(s).date()` (model): strict `YYYY-MM-DD` with an
optional `T`/space separated time part; result as a day number. -/
def parseDateIso (s : String) : Option Int :=
  let l := s.toList
  match twoDigits (l.take 4 |>.take 2), twoDigits (l.take 4 |>.drop 2) with
  | some yh, some yl =>
    (match l.drop 4 with
    | '-' :: r1 =>
      (match twoDigits (r1.take 2) with
      | some m =>
        (match r1.drop 2 with
        | '-' :: r2 =>
          (match twoDigits (r2.take 2) with
          | some d =>
            let y : Int := (yh * 100 + yl : Nat)
            let tail := r2.drop 2
            if validYMD y m d
                && (tail = [] ||
                    (match tail with
                    | c :: t => (c = 'T' || c = ' ') && validIsoTime t
                    | [] => false)) then
              some (daysFromCivil y m d)
            else none
          | none => none)
        | _ => none)
      | none => none)
    | _ => none)
  | _, _ => none

/-! ### Rows of the SQLite tables (`database_handler.py`, `init_database`) -/

/-- A row of the `customers` table.  Date columns hold the TEXT form SQLite
stores for bound `date` values; timestamps are abstract `Nat` instants. -/
structure CustomerRow where
  id : Nat
  phone_number : String
  name : Option String
  email : Option String
  business_name : Option String
  tz_id : Option String
  owner_age : Option Int
  gender : Option String
  subscription_start_date : Option String
  subscription_end_date : Option String
  is_active : Bool
  created_at : Nat
  updated_at : Nat
  deriving Repr, DecidableEq

/-- A row of the `customer_details` table (`children_birth_years` holds the
list the code serializes with `json.dumps`). -/
structure DetailsRow where
  id : Nat
  customer_id : Nat
  num_children : Option Int
  children_birth_years : Option (List Int)
  spouse1_workplaces : Option Int
  spouse2_workplaces : Option Int
  additional_info : Option String
  created_at : Nat
  updated_at : Nat
  deriving Repr, DecidableEq

/-- A row of the `calls` table; `call_data` is the JSON bag (`json.dumps` of a
string-to-nullable-string dict). -/
structure CallRow where
  id : Nat
  call_id : String
  phone_number : Option String
  customer_id : Option Nat
  pbx_num : Option String
  pbx_did : Option String
  call_type : Option String
  call_status : Option String
  extension_id : Option String
  extension_path : Option String
  call_data : Dict (Option String)
  started_at : Nat
  ended_at : Option Nat
  duration : Option Int
  updated_at : Nat
  deriving Repr, DecidableEq

/-- The provider response of `create_receipt` (ICount / mock). -/
structure IcountRes where
  status : Bool
  doc_id : Option String
  doc_num : Option String
  message : String
  deriving Repr, DecidableEq

/-- The receipt payload dict built in `process_receipt_description`. -/
structure ReceiptData where
  amount : Int
  description : String
  client_phone : Option String
  client_tz : Option String
  deriving Repr, DecidableEq

/-- A row of the `receipts` table (`icount_response` holds the structured
response the code serializes with `json.dumps`). -/
structure ReceiptRow where
  id : Nat
  customer_id : Nat
  call_id : Option String
  receipt_data : ReceiptData
  icount_doc_id : Option String
  icount_doc_num : Option String
  icount_response : Option IcountRes
  amount : Int
  description : String
  status : String
  client_contact_id : Option Nat
  created_at : Nat
  updated_at : Nat
  deriving Repr, DecidableEq

/-- A row of the `messages` table. -/
structure MessageRow where
  id : Nat
  customer_id : Nat
  call_id : Option String
  message_file : Option String
  message_text : Option String
  message_duration : Option Int
  status : String
  priority : String
  created_at : Nat
  deriving Repr, DecidableEq

/-- A row of the `annual_reports` table. -/
structure ReportRow where
  id : Nat
  customer_id : Nat
  report_year : Int
  status : String
  requested_at : Nat
  deriving Repr, DecidableEq

/-- A row of the `contacts` table. -/
structure ContactRow where
  id : Nat
  customer_id : Nat
  name : Option String
  phone : Option String
  email : Option String
  tz_id : Option String
  business_name : Option String
  notes : Option String
  created_at : Nat
  updated_at : Nat
  deriving Repr, DecidableEq

/-- The durable store: one list per table plus AUTOINCREMENT counters. -/
structure DB where
  customers : List CustomerRow
  details : List DetailsRow
  calls : List CallRow
  receipts : List ReceiptRow
  messages : List MessageRow
  reports : List ReportRow
  contacts : List ContactRow
  nextCustomerId : Nat
  nextDetailsId : Nat
  nextCallId : Nat
  nextReceiptId : Nat
  nextMessageId : Nat
  nextReportId : Nat
  nextContactId : Nat
  deriving Repr, DecidableEq

/-- The empty database produced by `init_database`. -/
def emptyDB : DB :=
  { customers := [], details := [], calls := [], receipts := [], messages := [],
    reports := [], contacts := [], nextCustomerId := 1, nextDetailsId := 1,
    nextCallId := 1, nextReceiptId := 1, nextMessageId := 1, nextReportId := 1,
    nextContactId := 1 }

/-! ### Customer repository operations -/

/-- `get_customer_by_phone` (SQL `phone_number = ?`; binding `None` compares
against NULL and matches nothing). -/
def get_customer_by_phone (db : DB) (phone : Option String) : Option CustomerRow :=
  match phone with
  | none => none
  | some p => db.customers.find? (fun r => r.phone_number == p)

/-- `get_customer_by_id`. -/
def get_customer_by_id (db : DB) (cid : Nat) : Option CustomerRow :=
  db.customers.find? (fun r => r.id == cid)

/-- `create_customer`: inserts the customer with the subscription window
`[today, today + timedelta(days = 30 * months)]` and an empty
`customer_details` row, in one transaction; the UNIQUE constraint on
`phone_number` makes the insert raise (`Except.error`) when the phone is
already present. `months` is `Config.DEFAULT_SUBSCRIPTION_MONTHS`. -/
def create_customer (db : DB) (phone : String) (name email : Option String)
    (today : Int) (months : Int) (now : Nat) : Except Unit (DB × Nat) :=
  if db.customers.any (fun r => r.phone_number == phone) then .error ()
  else
    let cid := db.nextCustomerId
    let row : CustomerRow :=
      { id := cid, phone_number := phone, name := name, email := email,
        business_name := none, tz_id := none, owner_age := none, gender := none,
        subscription_start_date := some (isoDate today),
        subscription_end_date := some (isoDate (today + 30 * months)),
        is_active := true, created_at := now, updated_at := now }
    let drow : DetailsRow :=
      { id := db.nextDetailsId, customer_id := cid, num_children := none,
        children_birth_years := none, spouse1_workplaces := none,
        spouse2_workplaces := none, additional_info := none,
        created_at := now, updated_at := now }
    .ok ({ db with customers := db.customers ++ [row], details := db.details ++ [drow],
                   nextCustomerId := cid + 1, nextDetailsId := db.nextDetailsId + 1 }, cid)

/-- Dynamic kwarg values passed to `update_customer`. -/
inductive Val
  | vs (s : String)
  | vi (n : Int)
  | vb (b : Bool)
  deriving Repr, DecidableEq

/-- The allow-list of `update_customer`. -/
def customerAllowed : List String :=
  ["name", "email", "subscription_start_date", "subscription_end_date", "is_active",
   "business_name", "tz_id", "owner_age", "gender"]

/-- One `column = ?` SET clause of `update_customer` applied to a row
(a key bound to a value of the wrong kind leaves the row unchanged; the
callers only bind strings to the TEXT columns, an integer to `owner_age`
and a boolean to `is_active`). -/
def applyCustomerKV (r : CustomerRow) (p : String × Val) : CustomerRow :=
  match p with
  | (k, .vs s) =>
    if k = "name" then { r with name := some s }
    else if k = "email" then { r with email := some s }
    else if k = "subscription_start_date" then { r with subscription_start_date := some s }
    else if k = "subscription_end_date" then { r with subscription_end_date := some s }
    else if k = "business_name" then { r with business_name := some s }
    else if k = "tz_id" then { r with tz_id := some s }
    else if k = "gender" then { r with gender := some s }
    else r
  | (k, .vi n) => if k = "owner_age" then { r with owner_age := some n } else r
  | (k, .vb b) => if k = "is_active" then { r with is_active := b } else r

/-- `update_customer`: keeps only allow-listed keys, returns `false` without
touching the database when nothing remains, otherwise applies the SET
clauses plus `updated_at = now` to the row with the given id and reports
whether a row matched (`cur.rowcount > 0`). -/
def update_customer (db : DB) (cid : Nat) (kwargs : List (String × Val)) (now : Nat) :
    DB × Bool :=
  if kwargs.isEmpty then (db, false)
  else
    let kept := kwargs.filter (fun p => p.1 ∈ customerAllowed)
    if kept.isEmpty then (db, false)
    else
      ({ db with customers := db.customers.map (fun r =>
          if r.id == cid then { kept.foldl applyCustomerKV r with updated_at := now } else r) },
       db.customers.any (fun r => r.id == cid))

/-- The narrower allow-list of `update_customer_profile`. -/
def profileAllowed : List String :=
  ["name", "business_name", "tz_id", "owner_age", "gender", "email"]

/-- `update_customer_profile`: pre-filters by its own allow-list and
delegates to `update_customer`. -/
def update_customer_profile (db : DB) (cid : Nat) (kwargs : List (String × Val)) (now : Nat) :
    DB × Bool :=
  update_customer db cid (kwargs.filter (fun p => p.1 ∈ profileAllowed)) now

/-- `is_subscription_active`: `False` when the customer is absent or the end
date is missing/empty; otherwise the stored text is parsed with
`strptime('%Y-%m-%d')`, falling back to `fromisoformat`, and compared
inclusively against today (`end_date >= datetime.now().date()`). -/
def is_subscription_active (customer : Option CustomerRow) (today : Int) : Bool :=
  match customer with
  | none => false
  | some c =>
    match c.subscription_end_date with
    | none => false
    | some s =>
      if s = "" then false
      else
        match parseDateStrptime s with
        | some d => decide (today ≤ d)
        | none =>
          match parseDateIso s with
          | some d => decide (today ≤ d)
          | none => false

/-- `get_customer_details` (SQL `customer_id = ?`, first row). -/
def get_customer_details (db : DB) (cid : Nat) : Option DetailsRow :=
  db.details.find? (fun r => r.customer_id == cid)

/-- `is_profile_complete`: truthy `tz_id`, non-null `owner_age`, truthy
`gender`, and a details row with non-null `num_children`. -/
def is_profile_complete (db : DB) (customer : Option CustomerRow) : Bool :=
  match customer with
  | none => false
  | some c =>
    let basic_ok := pyTruthy c.tz_id && c.owner_age.isSome && pyTruthy c.gender
    let kids_ok := match get_customer_details db c.id with
      | some d => d.num_children.isSome
      | none => false
    basic_ok && kids_ok

/-- Dynamic kwargs of `update_customer_details`, one constructor per
allow-listed column (its callers pass only these keys). -/
inductive DetKV
  | numChildren (n : Int)
  | birthYears (l : List Int)
  | spouse1 (n : Int)
  | spouse2 (n : Int)
  | addInfo (s : String)
  deriving Repr, DecidableEq

/-- One SET clause / INSERT column of `update_customer_details`. -/
def applyDetailsKV (r : DetailsRow) (p : DetKV) : DetailsRow :=
  match p with
  | .numChildren n => { r with num_children := some n }
  | .birthYears l => { r with children_birth_years := some l }
  | .spouse1 n => { r with spouse1_workplaces := some n }
  | .spouse2 n => { r with spouse2_workplaces := some n }
  | .addInfo s => { r with additional_info := some s }

/-- `update_customer_details`: updates the existing row for the customer
(stamping `updated_at`) or inserts a fresh row populated with the given
columns. -/
def update_customer_details (db : DB) (cid : Nat) (kwargs : List DetKV) (now : Nat) :
    DB × Bool :=
  match db.details.find? (fun r => r.customer_id == cid) with
  | some _ =>
    if kwargs.isEmpty then (db, false)
    else
      ({ db with details := db.details.map (fun r =>
          if r.customer_id == cid then { kwargs.foldl applyDetailsKV r with updated_at := now }
          else r) }, true)
  | none =>
    let row : DetailsRow := kwargs.foldl applyDetailsKV
      { id := db.nextDetailsId, customer_id := cid, num_children := none,
        children_birth_years := none, spouse1_workplaces := none,
        spouse2_workplaces := none, additional_info := none,
        created_at := now, updated_at := now }
    ({ db with details := db.details ++ [row], nextDetailsId := db.nextDetailsId + 1 }, true)

/-! ### Call logger -/

/-- `params.get(k)` on the inbound call-metadata dict, flattening the
"absent key" and "key bound to None" cases exactly as Python `dict.get`. -/
def pget (params : Dict (Option String)) (k : String) : Option String :=
  (dget params k).bind id

/-- `log_call`: resolves the customer from the truthy `PBXphone` at log
time, then `INSERT OR REPLACE` on the `calls` row keyed by `PBXcallId` —
the old row (including its JSON bag) is deleted and a fresh row is inserted
whose bag is the full new metadata dict.  A missing/None `PBXcallId`
violates the NOT NULL constraint and raises (`none`). -/
def log_call (db : DB) (params : Dict (Option String)) (now : Nat) :
    Option (DB × Nat) :=
  let phone := pget params "PBXphone"
  let customer_id :=
    if pyTruthy phone then (get_customer_by_phone db phone).map (fun c => c.id) else none
  match pget params "PBXcallId" with
  | none => none
  | some callId =>
    let row : CallRow :=
      { id := db.nextCallId, call_id := callId, phone_number := phone,
        customer_id := customer_id,
        pbx_num := pget params "PBXnum", pbx_did := pget params "PBXdid",
        call_type := pget params "PBXcallType", call_status := pget params "PBXcallStatus",
        extension_id := pget params "PBXextensionId",
        extension_path := pget params "PBXextensionPath",
        call_data := params, started_at := now, ended_at := none, duration := none,
        updated_at := now }
    some ({ db with calls := db.calls.filter (fun r => ¬(r.call_id == callId)) ++ [row],
                    nextCallId := db.nextCallId + 1 }, db.nextCallId)

/-- `update_call_data` (= the spec's `merge_update`): reads the existing
JSON bag of the row with this call id, shallow-merges the new fields over
it (`existing.update(new_data)`), writes it back stamping `updated_at`;
reports not-found without writing when the call id is unknown. -/
def update_call_data (db : DB) (callId : String) (newData : Dict (Option String)) (now : Nat) :
    DB × Bool :=
  match db.calls.find? (fun r => r.call_id == callId) with
  | some row =>
    let merged := dUpdate row.call_data newData
    ({ db with calls := db.calls.map (fun r =>
        if r.call_id == callId then { r with call_data := merged, updated_at := now } else r) },
     true)
  | none => (db, false)

/-! ### Receipts, messages, reports, contacts -/

/-- `create_receipt`: inserts a `pending` receipt row capturing the request
payload before the provider is invoked. -/
def create_receipt (db : DB) (cid : Nat) (callId : String) (rd : ReceiptData) (now : Nat) :
    DB × Nat :=
  let row : ReceiptRow :=
    { id := db.nextReceiptId, customer_id := cid, call_id := some callId,
      receipt_data := rd, icount_doc_id := none, icount_doc_num := none,
      icount_response := none, amount := rd.amount, description := rd.description,
      status := "pending", client_contact_id := none, created_at := now, updated_at := now }
  ({ db with receipts := db.receipts ++ [row], nextReceiptId := db.nextReceiptId + 1 },
   db.nextReceiptId)

/-- Dynamic kwargs of `update_receipt`, one constructor per allow-listed
column its callers use. -/
inductive RcptKV
  | docId (v : Option String)
  | docNum (v : Option String)
  | response (v : IcountRes)
  | status (v : String)
  | contactId (v : Nat)
  deriving Repr, DecidableEq

/-- One SET clause of `update_receipt`. -/
def applyReceiptKV (r : ReceiptRow) (p : RcptKV) : ReceiptRow :=
  match p with
  | .docId v => { r with icount_doc_id := v }
  | .docNum v => { r with icount_doc_num := v }
  | .response v => { r with icount_response := some v }
  | .status v => { r with status := v }
  | .contactId v => { r with client_contact_id := some v }

/-- `update_receipt`. -/
def update_receipt (db : DB) (rid : Nat) (kwargs : List RcptKV) (now : Nat) : DB × Bool :=
  if kwargs.isEmpty then (db, false)
  else
    ({ db with receipts := db.receipts.map (fun r =>
        if r.id == rid then { kwargs.foldl applyReceiptKV r with updated_at := now } else r) },
     db.receipts.any (fun r => r.id == rid))

/-- `save_message`. -/
def save_message (db : DB) (cid : Nat) (callId : String) (mfile mtext : Option String)
    (dur : Option Int) (now : Nat) : DB × Nat :=
  let row : MessageRow :=
    { id := db.nextMessageId, customer_id := cid, call_id := some callId,
      message_file := mfile, message_text := mtext, message_duration := dur,
      status := "new", priority := "normal", created_at := now }
  ({ db with messages := db.messages ++ [row], nextMessageId := db.nextMessageId + 1 },
   db.nextMessageId)

/-- `request_annual_report`: `INSERT OR REPLACE` keyed by
`(customer_id, report_year)`; a falsy `report_year` argument defaults to
last year. -/
def request_annual_report (db : DB) (cid : Nat) (ry : Option Int) (year : Int) (now : Nat) :
    DB × Nat :=
  let y := match ry with
    | some v => if v = 0 then year - 1 else v
    | none => year - 1
  let row : ReportRow :=
    { id := db.nextReportId, customer_id := cid, report_year := y,
      status := "requested", requested_at := now }
  ({ db with reports := db.reports.filter
               (fun r => ¬(r.customer_id == cid && r.report_year == y)) ++ [row],
             nextReportId := db.nextReportId + 1 }, db.nextReportId)

/-- SQL `=` on nullable columns: NULL compares unequal to everything. -/
def sqlEqOpt (a b : Option String) : Bool :=
  match a, b with
  | some x, some y => x == y
  | _, _ => false

/-- `upsert_contact`: field-merges (COALESCE: new non-null values override,
null inputs preserve old values) the existing `(customer, phone)` row, or
inserts a fresh row when there is no match. -/
def upsert_contact (db : DB) (cid : Nat) (phone : Option String)
    (name tz business email notes : Option String) (now : Nat) : DB × Nat :=
  match db.contacts.find? (fun r => r.customer_id == cid && sqlEqOpt r.phone phone) with
  | some row =>
    ({ db with contacts := db.contacts.map (fun r =>
        if r.id == row.id then
          { r with name := name <|> r.name, tz_id := tz <|> r.tz_id,
                   business_name := business <|> r.business_name,
                   email := email <|> r.email, notes := notes <|> r.notes,
                   updated_at := now }
        else r) }, row.id)
  | none =>
    let row : ContactRow :=
      { id := db.nextContactId, customer_id := cid, name := name, phone := phone,
        email := email, tz_id := tz, business_name := business, notes := notes,
        created_at := now, updated_at := now }
    ({ db with contacts := db.contacts ++ [row], nextContactId := db.nextContactId + 1 },
     db.nextContactId)

/-- `get_contact_by_phone`. -/
def get_contact_by_phone (db : DB) (cid : Nat) (phone : String) : Option ContactRow :=
  db.contacts.find? (fun r => r.customer_id == cid && sqlEqOpt r.phone (some phone))

/-! ### PBX server layer (`pbx_server.py`) -/

/-- A value stored in the per-call session dict (`current_calls[call_id]`):
raw string inputs, the integer flow cursors of the details wizard, the
accumulating birth-year list, and Python `None`. -/
inductive SVal
  | s (v : String)
  | i (v : Int)
  | il (v : List Int)
  | nullv
  deriving Repr, DecidableEq

/-- The whole server state: the durable store plus the process-wide
`current_calls` session map. -/
structure SrvState where
  db : DB
  sessions : Dict (Dict SVal)
  deriving Repr, DecidableEq

/-- Ambient request context: the current timestamp, day number, calendar
year, the configured subscription month count, and the receipt provider
(`self.icount.create_receipt`). -/
structure Env where
  now : Nat
  today : Int
  year : Int
  months : Int
  icount : ReceiptData → IcountRes

/-- The decision each handler returns, identified by the wire descriptor's
`name` (each Python return-dict is fully determined by its name plus the
dynamic index / document number carried as a constructor argument). -/
inductive Menu
  | systemError
  | newCustomer
  | renewSubscription
  | mainMenu
  | newCustomerID
  | registrationFail
  | ownerAge
  | gender
  | numChildren
  | childBirthYear (k : Int)
  | spouseWorkplaces (k : Int)
  | detailsUpdated
  | receiptAmount
  | invalidAmount
  | clientPhone
  | clientIdNumber
  | saveContactChoice
  | receiptDescription
  | receiptSuccess (docNum : Option String)
  | receiptFailed
  | cancelReceiptId
  | benefitsMenu
  | recordMessage
  | messageReceived
  | annualReport
  | reportRequested
  deriving Repr, DecidableEq

/-- `show_error_and_return_to_main`. -/
def show_error_and_return_to_main : Menu := .systemError

/-- `handle_new_customer`. -/
def handle_new_customer : Menu := .newCustomer

/-- `handle_subscription_renewal`. -/
def handle_subscription_renewal : Menu := .renewSubscription

/-- `show_main_menu`. -/
def show_main_menu : Menu := .mainMenu

/-- `handle_create_receipt` (getDTMF `receiptAmount`). -/
def handle_create_receipt : Menu := .receiptAmount

/-- `handle_cancel_receipt`. -/
def handle_cancel_receipt : Menu := .cancelReceiptId

/-- `handle_update_personal_details` (getDTMF `numChildren`). -/
def handle_update_personal_details : Menu := .numChildren

/-- `handle_show_benefits`. -/
def handle_show_benefits : Menu := .benefitsMenu

/-- `handle_leave_message`. -/
def handle_leave_message : Menu := .recordMessage

/-- `handle_annual_report`. -/
def handle_annual_report : Menu := .annualReport

/-- `ask_spouse_workplaces`. -/
def ask_spouse_workplaces (k : Int) : Menu := .spouseWorkplaces k

/-- `require_profile_or_main`: the Profile Completion Engine.  Looks up the
customer by phone, offers registration when absent, then (when the profile
is incomplete) asks for the first missing field in the code's fixed order:
`tz_id`, `owner_age`, `gender`, details/`num_children`; otherwise the main
menu. -/
def require_profile_or_main (db : DB) (phone : Option String) : Menu :=
  match get_customer_by_phone db phone with
  | none => handle_new_customer
  | some c =>
    if ¬ is_profile_complete db (some c) then
      if ¬ pyTruthy c.tz_id then .newCustomerID
      else if c.owner_age.isNone then .ownerAge
      else if ¬ pyTruthy c.gender then .gender
      else
        match get_customer_details db c.id with
        | none => handle_update_personal_details
        | some d =>
          if d.num_children.isNone then handle_update_personal_details else show_main_menu
    else show_main_menu

/-- `current_calls.get(call_id, {})`. -/
def sessionOf (st : SrvState) (callId : String) : Dict SVal :=
  (dget st.sessions callId).getD []

/-- Read a session value that the flows only ever store as a string
(`cd.get(k)`); Python `None` (and the unreachable non-string kinds) read as
`none`. -/
def sGetStr (cd : Dict SVal) (k : String) : Option String :=
  match dget cd k with
  | some (.s v) => some v
  | _ => none

/-- Python truthiness of `cd.get(k)`. -/
def sTruthy : Option SVal → Bool
  | some (.s v) => v ≠ ""
  | some (.i n) => n ≠ 0
  | some (.il l) => ¬ l.isEmpty
  | some .nullv => false
  | none => false

/-- `cd.get(k, dflt)` for the integer flow cursors (only ever stored via
`SVal.i`). -/
def sGetInt (cd : Dict SVal) (k : String) (dflt : Int) : Int :=
  match dget cd k with
  | some (.i v) => v
  | _ => dflt

/-- `cd.setdefault('children_birth_years', [])` as a read (only ever stored
via `SVal.il`). -/
def sGetYears (cd : Dict SVal) : List Int :=
  match dget cd "children_birth_years" with
  | some (.il v) => v
  | _ => []

/-- `process_new_customer_choice`. -/
def process_new_customer_choice (st : SrvState) (choice : String) : SrvState × Option Menu :=
  if choice = "1" then (st, some .newCustomerID) else (st, some show_main_menu)

/-- `process_new_customer_id`: looks up the session phone, registers the
customer if needed (a raising `create_customer` is caught and reported as
`registrationFail`), stores the entered national id via
`update_customer_profile`, and re-enters the profile engine. -/
def process_new_customer_id (env : Env) (st : SrvState) (callId tz : String) :
    SrvState × Option Menu :=
  match sGetStr (sessionOf st callId) "PBXphone" with
  | none => (st, some show_main_menu)
  | some p =>
    if p = "" then (st, some show_main_menu)
    else
      match get_customer_by_phone st.db (some p) with
      | some c =>
        let r := update_customer_profile st.db c.id [("tz_id", .vs tz)] env.now
        ({ st with db := r.1 }, some (require_profile_or_main r.1 (some p)))
      | none =>
        match create_customer st.db p none none env.today env.months env.now with
        | .error _ => (st, some .registrationFail)
        | .ok (db1, cid) =>
          match get_customer_by_id db1 cid with
          | some c =>
            let r := update_customer_profile db1 c.id [("tz_id", .vs tz)] env.now
            ({ st with db := r.1 }, some (require_profile_or_main r.1 (some p)))
          | none => ({ st with db := db1 }, some (require_profile_or_main db1 (some p)))

/-- `process_owner_age`: accepts an integer in `[14, 99]` and stores it;
any parse/range failure is caught and changes nothing; either way the
profile engine is re-invoked. -/
def process_owner_age (env : Env) (st : SrvState) (callId age : String) :
    SrvState × Option Menu :=
  let phone := sGetStr (sessionOf st callId) "PBXphone"
  match pyInt age with
  | none => (st, some (require_profile_or_main st.db phone))
  | some a =>
    if a < 14 ∨ 99 < a then (st, some (require_profile_or_main st.db phone))
    else
      match get_customer_by_phone st.db phone with
      | some c =>
        let r := update_customer_profile st.db c.id [("owner_age", .vi a)] env.now
        ({ st with db := r.1 }, some (require_profile_or_main r.1 phone))
      | none => (st, some (require_profile_or_main st.db phone))

/-- `process_gender`. -/
def process_gender (env : Env) (st : SrvState) (callId choice : String) :
    SrvState × Option Menu :=
  let phone := sGetStr (sessionOf st callId) "PBXphone"
  let val : Option String :=
    if choice = "1" then some "male" else if choice = "2" then some "female" else none
  match get_customer_by_phone st.db phone, val with
  | some c, some v =>
    let r := update_customer_profile st.db c.id [("gender", .vs v)] env.now
    ({ st with db := r.1 }, some (require_profile_or_main r.1 phone))
  | _, _ => (st, some (require_profile_or_main st.db phone))

/-- `process_main_menu_choice`. -/
def process_main_menu_choice (st : SrvState) (choice : String) : SrvState × Option Menu :=
  if choice = "1" then (st, some handle_create_receipt)
  else if choice = "2" then (st, some handle_cancel_receipt)
  else if choice = "3" then (st, some handle_update_personal_details)
  else if choice = "4" then (st, some handle_show_benefits)
  else if choice = "5" then (st, some handle_leave_message)
  else if choice = "6" then (st, some handle_annual_report)
  else (st, some show_main_menu)

/-- `process_receipt_amount`: the sentinel `'SKIP'` aborts to the main
menu; a parsed positive amount advances to client-phone entry; a
non-positive or unparsable amount yields the `invalidAmount`
retry-or-main-menu choice. -/
def process_receipt_amount (st : SrvState) (amount : String) : SrvState × Option Menu :=
  if amount = "SKIP" then (st, some show_main_menu)
  else
    match pyInt amount with
    | some amt => if amt ≤ 0 then (st, some .invalidAmount) else (st, some .clientPhone)
    | none => (st, some .invalidAmount)

/-- `process_client_phone`. -/
def process_client_phone (st : SrvState) (callId phone : String) : SrvState × Option Menu :=
  let cd := dset (sessionOf st callId) "client_phone" (.s phone)
  ({ st with sessions := dset st.sessions callId cd }, some .clientIdNumber)

/-- `process_client_id` (`cd['client_tz'] = tz or None`). -/
def process_client_id (st : SrvState) (callId tz : String) : SrvState × Option Menu :=
  let v : SVal := if tz = "" then .nullv else .s tz
  let cd := dset (sessionOf st callId) "client_tz" v
  ({ st with sessions := dset st.sessions callId cd }, some .saveContactChoice)

/-- `process_save_contact_choice`: on "1" with a resolvable issuer, upserts
the contact keyed on the entered client phone (tz attached, IVR-tagged
notes); either way advances to description entry. -/
def process_save_contact_choice (env : Env) (st : SrvState) (callId choice : String) :
    SrvState × Option Menu :=
  let cd := sessionOf st callId
  match get_customer_by_phone st.db (sGetStr cd "PBXphone") with
  | some issuer =>
    if choice = "1" then
      let r := upsert_contact st.db issuer.id (sGetStr cd "client_phone")
        none (sGetStr cd "client_tz") none none (some "added_via_ivr") env.now
      ({ st with db := r.1 }, some .receiptDescription)
    else (st, some .receiptDescription)
  | none => (st, some .receiptDescription)

/-- `process_receipt_description`: aborts with the system-error menu when
the session amount or the issuer is missing; otherwise persists a pending
receipt, links a known contact, invokes the provider and finalizes the row
to `completed`/`failed`.  `none` models the uncaught `int()` raise on a
non-numeric stored amount. -/
def process_receipt_description (env : Env) (st : SrvState) (callId description : String) :
    SrvState × Option Menu :=
  let cd := sessionOf st callId
  let amount := dget cd "receiptAmount"
  match get_customer_by_phone st.db (sGetStr cd "PBXphone") with
  | none => (st, some show_error_and_return_to_main)
  | some issuer =>
    if ¬ sTruthy amount then (st, some show_error_and_return_to_main)
    else
      let client_phone := sGetStr cd "client_phone"
      let client_contact_id : Option Nat :=
        match client_phone with
        | some p =>
          if p ≠ "" then (get_contact_by_phone st.db issuer.id p).map (fun c => c.id)
          else none
        | none => none
      match amount with
      | some (.s amtStr) =>
        (match pyInt amtStr with
        | none => (st, none)
        | some amt =>
          let rd : ReceiptData :=
            { amount := amt,
              description := if description ≠ "NO_DESCRIPTION" then description else "קבלה",
              client_phone := client_phone, client_tz := sGetStr cd "client_tz" }
          let r1 := create_receipt st.db issuer.id callId rd env.now
          let db2 := match client_contact_id with
            | some ccid => (update_receipt r1.1 r1.2 [.contactId ccid] env.now).1
            | none => r1.1
          let res := env.icount rd
          if res.status then
            let db3 := (update_receipt db2 r1.2
              [.docId res.doc_id, .docNum res.doc_num, .response res, .status "completed"]
              env.now).1
            ({ st with db := db3 }, some (.receiptSuccess res.doc_num))
          else
            let db3 := (update_receipt db2 r1.2 [.response res, .status "failed"] env.now).1
            ({ st with db := db3 }, some .receiptFailed))
      | _ => (st, none)

/-- `process_children_count`: accepts an integer in `[0, 20]`, records the
count and resets the cursor to 1; `0` skips straight to spouse-workplace
collection, otherwise the first birth-year prompt is emitted; failures
short-circuit to the error/main-menu decision. -/
def process_children_count (st : SrvState) (callId num_children : String) :
    SrvState × Option Menu :=
  match pyInt num_children with
  | none => (st, some show_error_and_return_to_main)
  | some n =>
    if n < 0 ∨ 20 < n then (st, some show_error_and_return_to_main)
    else
      let cd := sessionOf st callId
      let cd1 := dset (dset cd "children_count" (.i n)) "current_child" (.i 1)
      let st1 := { st with sessions := dset st.sessions callId cd1 }
      if n = 0 then (st1, some (ask_spouse_workplaces 1))
      else (st1, some (.childBirthYear 1))

/-- `process_child_birth_year`: accepts an integer year within
`[current_year - 50, current_year]`, appends it, and advances the cursor by
one, prompting the next birth year until the recorded count is reached,
then moves to spouse-workplace collection; failures short-circuit to the
error/main-menu decision. -/
def process_child_birth_year (env : Env) (st : SrvState)
    (callId _input_name birth_year : String) : SrvState × Option Menu :=
  match pyInt birth_year with
  | none => (st, some show_error_and_return_to_main)
  | some year =>
    if year < env.year - 50 ∨ env.year < year then (st, some show_error_and_return_to_main)
    else
      let cd := sessionOf st callId
      let cd1 := dset cd "children_birth_years" (.il (sGetYears cd ++ [year]))
      let current_child := sGetInt cd1 "current_child" 1
      let total_children := sGetInt cd1 "children_count" 0
      if current_child < total_children then
        let cd2 := dset cd1 "current_child" (.i (current_child + 1))
        ({ st with sessions := dset st.sessions callId cd2 },
         some (.childBirthYear (current_child + 1)))
      else
        ({ st with sessions := dset st.sessions callId cd1 },
         some (ask_spouse_workplaces 1))

/-- `process_spouse_workplaces`: accepts an integer in `[0, 10]`; after
spouse 1 asks for spouse 2, after spouse 2 persists the accumulated details
in one `update_customer_details` write and confirms. -/
def process_spouse_workplaces (env : Env) (st : SrvState)
    (callId input_name workplaces : String) : SrvState × Option Menu :=
  match pyInt workplaces with
  | none => (st, some show_error_and_return_to_main)
  | some count =>
    if count < 0 ∨ 10 < count then (st, some show_error_and_return_to_main)
    else
      let cd1 := dset (sessionOf st callId) input_name (.i count)
      let st1 := { st with sessions := dset st.sessions callId cd1 }
      if input_name = "spouse1_workplaces" then (st1, some (ask_spouse_workplaces 2))
      else
        match get_customer_by_phone st1.db (sGetStr cd1 "PBXphone") with
        | some c =>
          let r := update_customer_details st1.db c.id
            [.numChildren (sGetInt cd1 "children_count" 0),
             .birthYears (sGetYears cd1),
             .spouse1 (sGetInt cd1 "spouse1_workplaces" 0),
             .spouse2 (sGetInt cd1 "spouse2_workplaces" 0)] env.now
          ({ st1 with db := r.1 }, some .detailsUpdated)
        | none => (st1, some .detailsUpdated)

/-- `process_customer_message`. -/
def process_customer_message (env : Env) (st : SrvState) (callId message_result : String) :
    SrvState × Option Menu :=
  let cd := sessionOf st callId
  match get_customer_by_phone st.db (sGetStr cd "PBXphone") with
  | some c =>
    if message_result ≠ "" then
      let r := save_message st.db c.id callId (some message_result) none none env.now
      ({ st with db := r.1 }, some .messageReceived)
    else (st, some .messageReceived)
  | none => (st, some .messageReceived)

/-- `process_annual_report_choice`. -/
def process_annual_report_choice (env : Env) (st : SrvState) (callId choice : String) :
    SrvState × Option Menu :=
  if choice = "1" then
    let cd := sessionOf st callId
    match get_customer_by_phone st.db (sGetStr cd "PBXphone") with
    | some c =>
      let r := request_annual_report st.db c.id none env.year env.now
      ({ st with db := r.1 }, some .reportRequested)
    | none => (st, some .reportRequested)
  else (st, some show_main_menu)

/-- `handle_user_input`: stores the input in the session and in the Call
row's JSON bag, then dispatches on the input name exactly as the
`if/elif` chain does; the `'renewSubscription'` branch calls the
nonexistent method `process_renewal_choice` and raises (`none`); any
unrecognized name falls through to the main menu. -/
def handle_user_input (env : Env) (st : SrvState) (callId input_name input_value : String) :
    SrvState × Option Menu :=
  let cd := dset (sessionOf st callId) input_name (.s input_value)
  let st1 : SrvState := { st with sessions := dset st.sessions callId cd }
  let st2 : SrvState :=
    { st1 with db := (update_call_data st1.db callId [(input_name, some input_value)] env.now).1 }
  if input_name = "newCustomer" then process_new_customer_choice st2 input_value
  else if input_name = "newCustomerID" then process_new_customer_id env st2 callId input_value
  else if input_name = "renewSubscription" then (st2, none)
  else if input_name = "mainMenu" then process_main_menu_choice st2 input_value
  else if input_name = "ownerAge" then process_owner_age env st2 callId input_value
  else if input_name = "gender" then process_gender env st2 callId input_value
  else if input_name = "numChildren" then process_children_count st2 callId input_value
  else if pyStartswith input_name "child_birth_year_" then
    process_child_birth_year env st2 callId input_name input_value
  else if input_name = "spouse1_workplaces" ∨ input_name = "spouse2_workplaces" then
    process_spouse_workplaces env st2 callId input_name input_value
  else if input_name = "customerMessage" then process_customer_message env st2 callId input_value
  else if input_name = "annualReport" then process_annual_report_choice env st2 callId input_value
  else if input_name = "receiptAmount" then process_receipt_amount st2 input_value
  else if input_name = "clientPhone" then process_client_phone st2 callId input_value
  else if input_name = "clientIdNumber" then process_client_id st2 callId input_value
  else if input_name = "saveContactChoice" then process_save_contact_choice env st2 callId input_value
  else if input_name = "receiptDescription" then process_receipt_description env st2 callId input_value
  else (st2, some show_main_menu)

/-- Feed a list of named inputs through `handle_user_input` one at a time,
collecting the emitted decisions. -/
def runInputs (env : Env) : SrvState → String → List (String × String) →
    SrvState × List (Option Menu)
  | st, _, [] => (st, [])
  | st, callId, (n, v) :: rest =>
    let r := handle_user_input env st callId n v
    let r2 := runInputs env r.1 callId rest
    (r2.1, r.2 :: r2.2)

/-! ### Helper lemmas on dicts and list scans -/

theorem dget_dset {α : Type} (d : Dict α) (k : String) (v : α) (k' : String) :
    dget (dset d k v) k' = if k' = k then some v else dget d k' := by
  induction d with
  | nil =>
    by_cases h : k' = k
    · simp [dset, dget, List.find?, h]
    · simp [dset, dget, List.find?, h, Ne.symm h]
  | cons p rest ih =>
    obtain ⟨k0, v0⟩ := p
    by_cases h0 : k0 = k
    · subst h0
      by_cases h : k' = k0
      · simp [dset, dget, List.find?, h]
      · simp [dset, dget, List.find?, h, Ne.symm h]
    · by_cases h : k' = k0
      · subst h
        simp [dset, dget, List.find?, h0, Ne.symm h0]
      · simp only [dset, if_neg h0]
        by_cases h' : k' = k <;>
          simp_all [dget, List.find?, h, h', Ne.symm h]

theorem dget_dUpdate_preserves {α : Type} (u d : Dict α) (k : String)
    (h : dget d k ≠ none) : dget (dUpdate d u) k ≠ none := by
  induction u generalizing d with
  | nil => exact h
  | cons p rest ih =>
    simp only [dUpdate, List.foldl] at *
    apply ih
    rw [dget_dset]
    by_cases hk : k = p.1 <;> simp [hk, h]

theorem dget_dUpdate_notin {α : Type} (u d : Dict α) (k : String)
    (h : ∀ p ∈ u, p.1 ≠ k) : dget (dUpdate d u) k = dget d k := by
  induction u generalizing d with
  | nil => rfl
  | cons p rest ih =>
    simp only [dUpdate, List.foldl] at *
    rw [ih _ (fun q hq => h q (List.mem_cons_of_mem _ hq)), dget_dset,
      if_neg (fun he => h p (List.mem_cons_self _ _) he.symm)]

theorem find?_map_pres {α : Type} (f : α → α) (p : α → Bool) (l : List α)
    (h : ∀ a, p (f a) = p a) : (l.map f).find? p = (l.find? p).map f := by
  induction l with
  | nil => rfl
  | cons a t ih =>
    simp only [List.map, List.find?]
    rw [h a]
    cases hpa : p a <;> simp [ih]

theorem filter_map_pres {α : Type} (f : α → α) (p : α → Bool) (l : List α)
    (h : ∀ a, p (f a) = p a) : (l.map f).filter p = (l.filter p).map f := by
  induction l with
  | nil => rfl
  | cons a t ih =>
    simp only [List.map, List.filter]
    rw [h a]
    cases hpa : p a <;> simp [ih]

/-- The row-lookup used in the claims about the `calls` table. -/
def findCall (db : DB) (cid : String) : Option CallRow :=
  db.calls.find? (fun r => r.call_id == cid)

theorem update_call_data_found (db : DB) (cid : String) (u : Dict (Option String))
    (now : Nat) (r : CallRow) (hfind : findCall db cid = some r) :
    findCall (update_call_data db cid u now).1 cid
        = some { r with call_data := dUpdate r.call_data u, updated_at := now } ∧
      (update_call_data db cid u now).2 = true := by
  have hpres : ∀ a : CallRow,
      ((if a.call_id == cid then
          { a with call_data := dUpdate r.call_data u, updated_at := now } else a).call_id == cid)
        = (a.call_id == cid) := by
    intro a
    by_cases h : a.call_id == cid <;> simp [h]
  unfold update_call_data findCall at *
  rw [hfind]
  constructor
  · simp only
    rw [find?_map_pres _ _ _ hpres, hfind]
    have hr : (r.call_id == cid) = true := by
      have := List.find?_some hfind
      simpa using this
    simp only [Option.map_some']
    split
    · rfl
    · rename_i hne
      exact absurd (by simpa using hr) hne
  · rfl

theorem update_call_data_notfound (db : DB) (cid : String) (u : Dict (Option String))
    (now : Nat) (hfind : findCall db cid = none) :
    update_call_data db cid u now = (db, false) := by
  unfold update_call_data
  unfold findCall at hfind
  rw [hfind]

theorem find?_append_none {α : Type} (p : α → Bool) (l1 l2 : List α)
    (h : l1.find? p = none) : (l1 ++ l2).find? p = l2.find? p := by
  induction l1 with
  | nil => rfl
  | cons a t ih =>
    simp only [List.find?] at h ⊢
    cases hpa : p a
    · rw [hpa] at h
      simp only [List.cons_append, List.find?, hpa]
      exact ih h
    · rw [hpa] at h
      exact absurd h (by simp)

/-- The Call row `log_call` inserts for metadata `params` carrying call id
`cid` (proof support for reasoning about `log_call`). -/
def logCallRow (db : DB) (params : Dict (Option String)) (cid : String) (now : Nat) : CallRow :=
  { id := db.nextCallId, call_id := cid,
    phone_number := pget params "PBXphone",
    customer_id := if pyTruthy (pget params "PBXphone") then
        (get_customer_by_phone db (pget params "PBXphone")).map (fun c => c.id)
      else none,
    pbx_num := pget params "PBXnum", pbx_did := pget params "PBXdid",
    call_type := pget params "PBXcallType", call_status := pget params "PBXcallStatus",
    extension_id := pget params "PBXextensionId",
    extension_path := pget params "PBXextensionPath",
    call_data := params, started_at := now, ended_at := none, duration := none,
    updated_at := now }

/-- The store `log_call` leaves behind: the old row for the call id is
deleted, the fresh row appended (proof support). -/
def logCallDB (db : DB) (params : Dict (Option String)) (cid : String) (now : Nat) : DB :=
  { db with
    calls := db.calls.filter (fun r => ¬(r.call_id == cid)) ++ [logCallRow db params cid now]
    nextCallId := db.nextCallId + 1 }

theorem log_call_replaces (db : DB) (params : Dict (Option String)) (cid : String) (now : Nat)
    (hcid : pget params "PBXcallId" = some cid) :
    log_call db params now = some (logCallDB db params cid now, db.nextCallId) ∧
    findCall (logCallDB db params cid now) cid = some (logCallRow db params cid now) := by
  constructor
  · simp only [log_call, hcid]
    rfl
  · unfold findCall logCallDB
    simp only
    rw [find?_append_none]
    · simp [List.find?, logCallRow]
    · rw [List.find?_eq_none]
      intro a ha
      have := (List.mem_filter.mp ha).2
      simpa using this

/-! ### Concrete fixtures for closed statements -/

/-- A fixed receipt provider shaped like `MockReceiptProvider.create_receipt`. -/
def mockIcount : ReceiptData → IcountRes :=
  fun _ => { status := true, doc_id := some "DBG_DOC_1", doc_num := some "DBG-R1",
             message := "Mock receipt created (debug mode)" }

/-- A fixed request context for concrete evaluations (today = 2026-10-12). -/
def testEnv : Env :=
  { now := 100, today := 20738, year := 2026, months := 12, icount := mockIcount }

/-- Inbound metadata of a concrete `/pbx` hit. -/
def testParams : Dict (Option String) :=
  [("PBXphone", some "0501234567"), ("PBXnum", some "10"), ("PBXdid", none),
   ("PBXcallId", some "c1"), ("PBXcallType", none), ("PBXcallStatus", none),
   ("PBXextensionId", none), ("PBXextensionPath", none)]

/-- The store after logging the hit once. -/
def testCallDB1 : DB :=
  match log_call emptyDB testParams 1 with
  | some r => r.1
  | none => emptyDB

/-- The Call row `log_call` writes for `testParams`. -/
def testCallRow : CallRow :=
  { id := 1, call_id := "c1", phone_number := some "0501234567", customer_id := none,
    pbx_num := some "10", pbx_did := none, call_type := none, call_status := none,
    extension_id := none, extension_path := none, call_data := testParams,
    started_at := 1, ended_at := none, duration := none, updated_at := 1 }

/-- The store after additionally merging a collected input into the bag. -/
def testCallDB2 : DB := (update_call_data testCallDB1 "c1" [("receiptAmount", some "100")] 2).1

/-- The Call row of `testCallDB2`. -/
def testCallRow2 : CallRow :=
  { testCallRow with call_data := testParams ++ [("receiptAmount", some "100")], updated_at := 2 }

/-- The store after a repeated `log_call` for the same call id. -/
def testCallDB3 : DB :=
  match log_call testCallDB2 testParams 3 with
  | some r => r.1
  | none => emptyDB

/-! ### C1 -/

/-- **C1, counterexample.**  The claim says a repeated write for an existing
call id merges the JSON bag so that every previously stored key survives.
Concretely: after `log_call` of the hit, `update_call_data` stores
`receiptAmount` in the bag (first conjunct), but a repeated `log_call` for
the same call id (`testCallDB3`) leaves a row whose bag no longer contains
`receiptAmount` (second conjunct) — `INSERT OR REPLACE` replaced the bag. -/
theorem c1_counterexample :
    ((findCall testCallDB2 "c1").map (fun r => dget r.call_data "receiptAmount")
        = some (some (some "100"))) ∧
    ((findCall testCallDB3 "c1").map (fun r => dget r.call_data "receiptAmount")
        = some none) := by
  exact ⟨rfl, rfl⟩

/-- **C1, amended.**  For a call id with an existing Call row: a repeated
write through `update_call_data` merges the JSON bag — every previously
stored key is still present and keys not named by the update keep their
values; but a repeated `log_call` hit replaces the row wholesale, its JSON
bag becoming exactly the new hit's metadata, while the non-JSON
identity/metadata columns take the most recent hit's values. -/
theorem c1_amended_call_writes (db : DB) (cid : String) (r : CallRow)
    (u params : Dict (Option String)) (now now' : Nat)
    (hfind : findCall db cid = some r)
    (hcid : pget params "PBXcallId" = some cid) :
    (∀ k, dget r.call_data k ≠ none →
      ∃ r', findCall (update_call_data db cid u now).1 cid = some r' ∧
        dget r'.call_data k ≠ none) ∧
    (∀ k, (∀ p ∈ u, p.1 ≠ k) →
      ∃ r', findCall (update_call_data db cid u now).1 cid = some r' ∧
        dget r'.call_data k = dget r.call_data k) ∧
    (∃ db2 rowid, log_call db params now' = some (db2, rowid) ∧
      ∃ r', findCall db2 cid = some r' ∧
        r'.call_data = params ∧
        r'.phone_number = pget params "PBXphone" ∧
        r'.pbx_num = pget params "PBXnum" ∧
        r'.pbx_did = pget params "PBXdid" ∧
        r'.call_type = pget params "PBXcallType" ∧
        r'.call_status = pget params "PBXcallStatus" ∧
        r'.extension_id = pget params "PBXextensionId" ∧
        r'.extension_path = pget params "PBXextensionPath" ∧
        r'.updated_at = now') := by
  obtain ⟨hf, -⟩ := update_call_data_found db cid u now r hfind
  refine ⟨?_, ?_, ?_⟩
  · intro k hk
    exact ⟨_, hf, dget_dUpdate_preserves u r.call_data k hk⟩
  · intro k hk
    exact ⟨_, hf, dget_dUpdate_notin u r.call_data k hk⟩
  · obtain ⟨h1, h2⟩ := log_call_replaces db params cid now' hcid
    exact ⟨_, _, h1, logCallRow db params cid now', h2,
      rfl, rfl, rfl, rfl, rfl, rfl, rfl, rfl, rfl⟩

/-- **C1, witness** for the amended theorem at a concrete store. -/
theorem c1_witness :
    findCall testCallDB2 "c1" = some testCallRow2 ∧
    pget testParams "PBXcallId" = some "c1" ∧
    dget testCallRow2.call_data "receiptAmount" ≠ none ∧
    (∃ r', findCall (update_call_data testCallDB2 "c1" [("x", some "9")] 4).1 "c1" = some r' ∧
      dget r'.call_data "receiptAmount" ≠ none) :=
  ⟨by decide, rfl, by decide,
   (c1_amended_call_writes testCallDB2 "c1" testCallRow2 [("x", some "9")] testParams 4 5
      (by decide) rfl).1 "receiptAmount" (by decide)⟩

/-! ### C6 -/

/-- **C6.**  `update_call_data` merge algebra on an existing Call row:
applying `{k1: v1}` then `{k2: v2}` for distinct keys yields the same bag
(pointwise, for every key) as the opposite order, and that bag contains
both `k1 ↦ v1` and `k2 ↦ v2`; applying `{k1: v1}` then `{k1: v1'}` leaves
`k1 ↦ v1'` (later value overwrites); and on an unknown call id
`update_call_data` performs no write and returns `false`. -/
theorem c6_merge_update_algebra (db : DB) (cid : String) (r : CallRow)
    (k1 k2 : String) (v1 v2 v1' : Option String) (n1 n2 : Nat)
    (hfind : findCall db cid = some r) (hne : k1 ≠ k2) :
    (∀ k, (findCall (update_call_data (update_call_data db cid [(k1, v1)] n1).1
            cid [(k2, v2)] n2).1 cid).map (fun row => dget row.call_data k)
        = (findCall (update_call_data (update_call_data db cid [(k2, v2)] n1).1
            cid [(k1, v1)] n2).1 cid).map (fun row => dget row.call_data k)) ∧
    ((findCall (update_call_data (update_call_data db cid [(k1, v1)] n1).1
        cid [(k2, v2)] n2).1 cid).map (fun row => dget row.call_data k1)
        = some (some v1)) ∧
    ((findCall (update_call_data (update_call_data db cid [(k1, v1)] n1).1
        cid [(k2, v2)] n2).1 cid).map (fun row => dget row.call_data k2)
        = some (some v2)) ∧
    ((findCall (update_call_data (update_call_data db cid [(k1, v1)] n1).1
        cid [(k1, v1')] n2).1 cid).map (fun row => dget row.call_data k1)
        = some (some v1')) ∧
    (∀ (db' : DB) (cid' : String) (u : Dict (Option String)) (now : Nat),
      findCall db' cid' = none → update_call_data db' cid' u now = (db', false)) := by
  obtain ⟨hf1, -⟩ := update_call_data_found db cid [(k1, v1)] n1 r hfind
  obtain ⟨hf2, -⟩ := update_call_data_found _ cid [(k2, v2)] n2 _ hf1
  obtain ⟨hg1, -⟩ := update_call_data_found db cid [(k2, v2)] n1 r hfind
  obtain ⟨hg2, -⟩ := update_call_data_found _ cid [(k1, v1)] n2 _ hg1
  obtain ⟨hh2, -⟩ := update_call_data_found _ cid [(k1, v1')] n2 _ hf1
  refine ⟨?_, ?_, ?_, ?_, ?_⟩
  · intro k
    rw [hf2, hg2]
    simp only [Option.map_some', Option.some.injEq]
    show dget (dset (dset r.call_data k1 v1) k2 v2) k
        = dget (dset (dset r.call_data k2 v2) k1 v1) k
    rw [dget_dset, dget_dset, dget_dset, dget_dset]
    by_cases hk1 : k = k1 <;> by_cases hk2 : k = k2
    · exact absurd (hk1.symm.trans hk2) hne
    · simp [hk1, hk2, hne, Ne.symm hne]
    · simp [hk1, hk2, hne, Ne.symm hne]
    · simp [hk1, hk2, hne, Ne.symm hne]
  · rw [hf2]
    simp only [Option.map_some', Option.some.injEq]
    show dget (dset (dset r.call_data k1 v1) k2 v2) k1 = some v1
    rw [dget_dset, if_neg hne, dget_dset, if_pos rfl]
  · rw [hf2]
    simp only [Option.map_some', Option.some.injEq]
    show dget (dset (dset r.call_data k1 v1) k2 v2) k2 = some v2
    rw [dget_dset, if_pos rfl]
  · rw [hh2]
    simp only [Option.map_some', Option.some.injEq]
    show dget (dset (dset r.call_data k1 v1) k1 v1') k1 = some v1'
    rw [dget_dset, if_pos rfl]
  · exact fun db' cid' u now h => update_call_data_notfound db' cid' u now h

/-- **C6, witness** at a concrete store. -/
theorem c6_witness :
    findCall testCallDB1 "c1" = some testCallRow ∧ ("a" : String) ≠ "b" ∧
    ((findCall (update_call_data (update_call_data testCallDB1 "c1" [("a", some "1")] 2).1
        "c1" [("b", some "2")] 3).1 "c1").map (fun row => dget row.call_data "a")
        = some (some (some "1"))) :=
  ⟨by decide, by decide,
   (c6_merge_update_algebra testCallDB1 "c1" testCallRow "a" "b" (some "1") (some "2")
      (some "9") 2 3 (by decide) (by decide)).2.1⟩

/-! ### C2 -/

/-- The "details row missing or `num_children` absent" test the engine uses. -/
def childrenMissing (db : DB) (c : CustomerRow) : Bool :=
  match get_customer_details db c.id with
  | none => true
  | some d => d.num_children.isNone

theorem require_profile_spec (db : DB) (phone : Option String) :
    require_profile_or_main db phone =
      (match get_customer_by_phone db phone with
      | none => Menu.newCustomer
      | some c =>
        if ¬ pyTruthy c.tz_id then Menu.newCustomerID
        else if c.owner_age.isNone then Menu.ownerAge
        else if ¬ pyTruthy c.gender then Menu.gender
        else if childrenMissing db c then Menu.numChildren
        else Menu.mainMenu) := by
  unfold require_profile_or_main
  cases hc : get_customer_by_phone db phone with
  | none => rfl
  | some c =>
    unfold is_profile_complete childrenMissing
    cases hd : get_customer_details db c.id with
    | none =>
      cases ht : pyTruthy c.tz_id <;> cases ha : c.owner_age <;>
        cases hg : pyTruthy c.gender <;>
          simp [ht, ha, hg, hd, handle_update_personal_details, show_main_menu]
    | some d =>
      cases hn : d.num_children <;>
        cases ht : pyTruthy c.tz_id <;> cases ha : c.owner_age <;>
          cases hg : pyTruthy c.gender <;>
            simp [ht, ha, hg, hd, hn, handle_update_personal_details, show_main_menu]

/-- Modelled from the spec (§4.2): decide the next action by fixed priority
order — registration offer, then `tz_id`, then `owner_age`, then `gender`,
then details/`num_children`, then main menu.  Specification side of the C2
refinement statement. -/
def specNextAction (custMissing tzMissing ageMissing genderMissing kidsMissing : Bool) : Menu :=
  if custMissing then .newCustomer
  else if tzMissing then .newCustomerID
  else if ageMissing then .ownerAge
  else if genderMissing then .gender
  else if kidsMissing then .numChildren
  else .mainMenu

/-- **C2.**  The Profile Completion Engine equals the spec's fixed-priority
decision procedure: no customer → registration offer; otherwise the first
missing field among `tz_id` (Python-falsy), `owner_age` (null), `gender`
(Python-falsy), details/`num_children` is prompted for; with nothing
missing, the main menu.  In particular, for a customer missing exactly one
of the four fields the engine prompts for exactly that field. -/
theorem c2_profile_priority (db : DB) (phone : Option String) :
    require_profile_or_main db phone =
      (match get_customer_by_phone db phone with
      | none => specNextAction true false false false false
      | some c =>
        specNextAction false (!pyTruthy c.tz_id) c.owner_age.isNone (!pyTruthy c.gender)
          (childrenMissing db c)) := by
  rw [require_profile_spec]
  cases hc : get_customer_by_phone db phone with
  | none => rfl
  | some c =>
    simp only [specNextAction]
    cases ht : pyTruthy c.tz_id <;> cases ha : c.owner_age.isNone <;>
      cases hg : pyTruthy c.gender <;> cases hk : childrenMissing db c <;>
        simp [ht, ha, hg, hk]

/-! ### C10 -/

/-- The customers table after the owner-age update of `process_owner_age`
(proof support): the matched row gets `owner_age` plus the `updated_at`
stamp, every other row and column is untouched. -/
def ageUpdatedCustomers (db : DB) (cid0 : Nat) (n : Int) (now : Nat) : DB :=
  { db with customers := db.customers.map (fun r =>
      if r.id == cid0 then { r with owner_age := some n, updated_at := now } else r) }

/-- **C10.**  The owner-age step accepts only inputs parsing as an integer
in `[14, 99]`: an accepted input sets exactly the customer's `owner_age`
(plus the update timestamp) and re-invokes the profile engine on the new
store; a non-numeric or out-of-range input changes nothing and re-invokes
the engine on the unchanged store; and with `tz_id` present and `owner_age`
still unset the engine's decision is the owner-age prompt again. -/
theorem c10_owner_age_step (env : Env) (st : SrvState) (cid p : String) (c : CustomerRow)
    (hp : sGetStr (sessionOf st cid) "PBXphone" = some p)
    (hc : get_customer_by_phone st.db (some p) = some c) :
    (∀ a n, pyInt a = some n → 14 ≤ n → n ≤ 99 →
      process_owner_age env st cid a =
        ({ st with db := ageUpdatedCustomers st.db c.id n env.now },
         some (require_profile_or_main (ageUpdatedCustomers st.db c.id n env.now) (some p)))) ∧
    (∀ a, pyInt a = none →
      process_owner_age env st cid a = (st, some (require_profile_or_main st.db (some p)))) ∧
    (∀ a n, pyInt a = some n → (n < 14 ∨ 99 < n) →
      process_owner_age env st cid a = (st, some (require_profile_or_main st.db (some p)))) ∧
    (pyTruthy c.tz_id = true → c.owner_age = none →
      require_profile_or_main st.db (some p) = Menu.ownerAge) := by
  refine ⟨?_, ?_, ?_, ?_⟩
  · intro a n hn h14 h99
    unfold process_owner_age
    simp only [hp, hn]
    rw [if_neg (by omega)]
    simp only [hc]
    rfl
  · intro a hn
    unfold process_owner_age
    simp only [hp, hn]
  · intro a n hn hout
    unfold process_owner_age
    simp only [hp, hn]
    rw [if_pos hout]
  · intro ht ha
    rw [require_profile_spec]
    simp [hc, ht, ha]

/-- A concrete customer with `tz_id` and `gender` set but `owner_age`
missing, for the C10 witness. -/
def ageCust : CustomerRow :=
  { id := 1, phone_number := "0501234567", name := none, email := none,
    business_name := none, tz_id := some "123456789", owner_age := none,
    gender := some "male", subscription_start_date := none,
    subscription_end_date := none, is_active := true, created_at := 0, updated_at := 0 }

/-- An empty details row for `ageCust`. -/
def ageDetails : DetailsRow :=
  { id := 1, customer_id := 1, num_children := none, children_birth_years := none,
    spouse1_workplaces := none, spouse2_workplaces := none, additional_info := none,
    created_at := 0, updated_at := 0 }

/-- The store holding `ageCust`. -/
def ageDB : DB :=
  { emptyDB with customers := [ageCust], details := [ageDetails],
                 nextCustomerId := 2, nextDetailsId := 2 }

/-- The server state for the C10 witness: session phone resolved. -/
def ageState : SrvState :=
  { db := ageDB, sessions := [("c1", [("PBXphone", SVal.s "0501234567")])] }

/-- **C10, witness** at a concrete store: the engine re-asks for the age
while it is unset, and an accepted "35" stores it. -/
theorem c10_witness :
    sGetStr (sessionOf ageState "c1") "PBXphone" = some "0501234567" ∧
    get_customer_by_phone ageState.db (some "0501234567") = some ageCust ∧
    require_profile_or_main ageState.db (some "0501234567") = Menu.ownerAge ∧
    process_owner_age testEnv ageState "c1" "35" =
      ({ ageState with db := ageUpdatedCustomers ageState.db 1 35 100 },
       some (require_profile_or_main (ageUpdatedCustomers ageState.db 1 35 100)
         (some "0501234567"))) :=
  ⟨by decide, by decide,
   (c10_owner_age_step testEnv ageState "c1" "0501234567" ageCust (by decide)
      (by decide)).2.2.2 (by decide) (by decide),
   (c10_owner_age_step testEnv ageState "c1" "0501234567" ageCust (by decide)
      (by decide)).1 "35" 35 (by decide) (by decide) (by decide)⟩

/-! ### C3 -/

/-- A minimal server state for evaluating dispatch behavior. -/
def plainState : SrvState := { db := emptyDB, sessions := [] }

/-- **C3 (code bug).**  The amount-entry step itself behaves as claimed:
`'SKIP'` aborts to the main menu, a positive integer advances to
client-phone entry, and any non-positive or non-numeric amount yields the
`invalidAmount` retry-or-main-menu choice.  But the retry digit is broken:
`handle_user_input` has no dispatch branch for the `invalidAmount` menu
name, so the caller's "1" — which the menu's own prompt text promises will
retry — falls into the unrecognized-input fallback and lands on the main
menu instead of re-entering amount entry ("0" also lands on the main
menu, as promised). -/
theorem c3_receipt_amount_retry_bug :
    (process_receipt_amount plainState "SKIP").2 = some show_main_menu ∧
    (process_receipt_amount plainState "100").2 = some Menu.clientPhone ∧
    (process_receipt_amount plainState "0").2 = some Menu.invalidAmount ∧
    (process_receipt_amount plainState "-3").2 = some Menu.invalidAmount ∧
    (process_receipt_amount plainState "abc").2 = some Menu.invalidAmount ∧
    (handle_user_input testEnv plainState "c1" "invalidAmount" "1").2 = some Menu.mainMenu ∧
    (handle_user_input testEnv plainState "c1" "invalidAmount" "1").2 ≠ some Menu.receiptAmount ∧
    (handle_user_input testEnv plainState "c1" "invalidAmount" "0").2 = some Menu.mainMenu := by
  decide

/-! ### C4 -/

/-- **C4.**  `create_customer` fails (raises on the UNIQUE constraint) when
the phone is already present, leaving the store untouched; for an unused
phone it creates — in the single transaction modelled by this one state
transition — a customer whose subscription window is
`[today, today + 30 * months days]` (`timedelta(days=30*months)` for the
configured month count) together with an empty `customer_details` row for
the new customer, and no other table changes. -/
theorem c4_create_customer (db : DB) (phone : String) (name email : Option String)
    (today months : Int) (now : Nat) :
    (db.customers.any (fun r => r.phone_number == phone) = true →
      create_customer db phone name email today months now = .error ()) ∧
    (db.customers.any (fun r => r.phone_number == phone) = false →
      ∃ row drow,
        create_customer db phone name email today months now =
          .ok ({ db with
                 customers := db.customers ++ [row]
                 details := db.details ++ [drow]
                 nextCustomerId := db.nextCustomerId + 1
                 nextDetailsId := db.nextDetailsId + 1 }, db.nextCustomerId) ∧
        row.id = db.nextCustomerId ∧ row.phone_number = phone ∧ row.name = name ∧
        row.email = email ∧
        row.subscription_start_date = some (isoDate today) ∧
        row.subscription_end_date = some (isoDate (today + 30 * months)) ∧
        row.tz_id = none ∧ row.owner_age = none ∧ row.gender = none ∧ row.is_active = true ∧
        drow.customer_id = row.id ∧ drow.num_children = none ∧
        drow.children_birth_years = none ∧ drow.spouse1_workplaces = none ∧
        drow.spouse2_workplaces = none ∧ drow.additional_info = none) := by
  constructor
  · intro h
    simp only [create_customer, h]
    rfl
  · intro h
    refine ⟨{ id := db.nextCustomerId, phone_number := phone, name := name, email := email,
              business_name := none, tz_id := none, owner_age := none, gender := none,
              subscription_start_date := some (isoDate today),
              subscription_end_date := some (isoDate (today + 30 * months)),
              is_active := true, created_at := now, updated_at := now },
            { id := db.nextDetailsId, customer_id := db.nextCustomerId, num_children := none,
              children_birth_years := none, spouse1_workplaces := none,
              spouse2_workplaces := none, additional_info := none,
              created_at := now, updated_at := now },
            ?_, rfl, rfl, rfl, rfl, rfl, rfl, rfl, rfl, rfl, rfl, rfl, rfl, rfl, rfl, rfl, rfl⟩
    simp only [create_customer, h]
    rfl

/-- **C4, witness**: duplicate phone raises; fresh phone creates the pair
of rows with the 360-day window for 12 configured months. -/
theorem c4_witness :
    (ageDB.customers.any (fun r => r.phone_number == "0501234567") = true) ∧
    create_customer ageDB "0501234567" none none 20738 12 5 = .error () ∧
    (emptyDB.customers.any (fun r => r.phone_number == "0501234567") = false) ∧
    (∃ row drow,
      create_customer emptyDB "0501234567" none none 20738 12 5 =
        .ok ({ emptyDB with
               customers := emptyDB.customers ++ [row]
               details := emptyDB.details ++ [drow]
               nextCustomerId := emptyDB.nextCustomerId + 1
               nextDetailsId := emptyDB.nextDetailsId + 1 }, emptyDB.nextCustomerId) ∧
      row.id = emptyDB.nextCustomerId ∧ row.phone_number = "0501234567" ∧ row.name = none ∧
      row.email = none ∧
      row.subscription_start_date = some (isoDate 20738) ∧
      row.subscription_end_date = some (isoDate (20738 + 30 * 12)) ∧
      row.tz_id = none ∧ row.owner_age = none ∧ row.gender = none ∧ row.is_active = true ∧
      drow.customer_id = row.id ∧ drow.num_children = none ∧
      drow.children_birth_years = none ∧ drow.spouse1_workplaces = none ∧
      drow.spouse2_workplaces = none ∧ drow.additional_info = none) :=
  ⟨by decide,
   (c4_create_customer ageDB "0501234567" none none 20738 12 5).1 (by decide),
   by decide,
   (c4_create_customer emptyDB "0501234567" none none 20738 12 5).2 (by decide)⟩

/-! ### C5 -/

theorem applyCustomerKV_frame (r : CustomerRow) (p : String × Val) :
    (applyCustomerKV r p).id = r.id ∧ (applyCustomerKV r p).phone_number = r.phone_number ∧
    (applyCustomerKV r p).created_at = r.created_at := by
  obtain ⟨k, v⟩ := p
  cases v <;> simp only [applyCustomerKV] <;> split_ifs <;> exact ⟨rfl, rfl, rfl⟩

theorem foldl_applyCustomerKV_frame (kvs : List (String × Val)) (r : CustomerRow) :
    (kvs.foldl applyCustomerKV r).id = r.id ∧
    (kvs.foldl applyCustomerKV r).phone_number = r.phone_number ∧
    (kvs.foldl applyCustomerKV r).created_at = r.created_at := by
  induction kvs generalizing r with
  | nil => exact ⟨rfl, rfl, rfl⟩
  | cons q t ih =>
    obtain ⟨i1, i2, i3⟩ := ih (applyCustomerKV r q)
    obtain ⟨a1, a2, a3⟩ := applyCustomerKV_frame r q
    exact ⟨by simp only [List.foldl, i1, a1], by simp only [List.foldl, i2, a2],
           by simp only [List.foldl, i3, a3]⟩

/-- **C5, counterexample.**  The claim says the profile update always
stamps an update timestamp on the row.  But invoking it with only an
unknown key is silently ignored without any write: it returns `false` and
the row's `updated_at` is still its old value (0, not the new instant 9),
so no timestamp was stamped. -/
theorem c5_counterexample :
    update_customer ageDB 1 [("favorite_color", Val.vs "x")] 9 = (ageDB, false) ∧
    ((ageDB.customers.find? (fun r => r.id == 1)).map (fun r => r.updated_at) = some 0) := by
  decide

/-- **C5, amended.**  The profile update applies only allow-listed fields
and silently ignores unknown keys (they do not change the outcome at all);
when at least one allow-listed field is supplied it stamps `updated_at` on
the matched row and returns whether any row was affected; when none is
supplied it performs no write and returns `false`.  The update never
touches `id`, `phone_number` or `created_at`; `update_customer_profile`
pre-filters by its narrower allow-list and delegates. -/
theorem c5_amended_profile_update (db : DB) (cid : Nat) (kwargs : List (String × Val))
    (now : Nat) :
    (update_customer db cid kwargs now =
      update_customer db cid (kwargs.filter (fun p => p.1 ∈ customerAllowed)) now) ∧
    ((kwargs.filter (fun p => p.1 ∈ customerAllowed)).isEmpty = true →
      update_customer db cid kwargs now = (db, false)) ∧
    ((kwargs.filter (fun p => p.1 ∈ customerAllowed)).isEmpty = false →
      (update_customer db cid kwargs now).2 = db.customers.any (fun r => r.id == cid) ∧
      (update_customer db cid kwargs now).1.customers = db.customers.map (fun r =>
        if r.id == cid then
          { (kwargs.filter (fun p => p.1 ∈ customerAllowed)).foldl applyCustomerKV r with
            updated_at := now }
        else r)) ∧
    (∀ (r : CustomerRow) (kvs : List (String × Val)),
      (kvs.foldl applyCustomerKV r).id = r.id ∧
      (kvs.foldl applyCustomerKV r).phone_number = r.phone_number ∧
      (kvs.foldl applyCustomerKV r).created_at = r.created_at) ∧
    (update_customer_profile db cid kwargs now =
      update_customer db cid (kwargs.filter (fun p => p.1 ∈ profileAllowed)) now) := by
  refine ⟨?_, ?_, ?_, ?_, ?_⟩
  · unfold update_customer
    cases hk : kwargs with
    | nil => rfl
    | cons q t =>
      by_cases h1 : ((q :: t).filter (fun p => p.1 ∈ customerAllowed)).isEmpty
      · simp [h1, List.filter_filter]
      · simp [h1, List.filter_filter, Bool.and_self]
  · intro h
    unfold update_customer
    cases hk : kwargs with
    | nil => rfl
    | cons q t =>
      rw [hk] at h
      simp [h]
  · intro h
    have h0 : kwargs.isEmpty = false := by
      cases kwargs with
      | nil => exact absurd h (by simp)
      | cons q t => rfl
    unfold update_customer
    simp [h0, h]
  · intro r kvs
    exact foldl_applyCustomerKV_frame kvs r
  · rfl

/-- **C5, witness**: with one allowed and one unknown key the unknown key
is dropped, the row is stamped with the new instant, and the return value
reports the row match. -/
theorem c5_witness :
    (([("name", Val.vs "dana"), ("favorite_color", Val.vs "x")].filter
        (fun p => p.1 ∈ customerAllowed)).isEmpty = false) ∧
    (update_customer ageDB 1 [("name", Val.vs "dana"), ("favorite_color", Val.vs "x")] 9).2
        = ageDB.customers.any (fun r => r.id == 1) ∧
    (update_customer ageDB 1 [("name", Val.vs "dana"), ("favorite_color", Val.vs "x")] 9).1.customers
        = ageDB.customers.map (fun r =>
            if r.id == 1 then
              { ([("name", Val.vs "dana"), ("favorite_color", Val.vs "x")].filter
                  (fun p => p.1 ∈ customerAllowed)).foldl applyCustomerKV r with
                updated_at := 9 }
            else r) :=
  ⟨by decide,
   ((c5_amended_profile_update ageDB 1
      [("name", Val.vs "dana"), ("favorite_color", Val.vs "x")] 9).2.2.1 (by decide)).1,
   ((c5_amended_profile_update ageDB 1
      [("name", Val.vs "dana"), ("favorite_color", Val.vs "x")] 9).2.2.1 (by decide)).2⟩

/-! ### C9 -/

/-- **C9.**  `is_subscription_active` (a total function — never an error)
returns `false` when the customer is absent, the stored end date is
missing, or the text parses under neither accepted format
(`strptime('%Y-%m-%d')`, then `fromisoformat`); when a format succeeds the
comparison against today is inclusive: the result is `today ≤ end`, so an
end date strictly before today is inactive and an end date equal to today
is active. -/
theorem c9_subscription_inclusive (c : CustomerRow) (today : Int) :
    (is_subscription_active none today = false) ∧
    (c.subscription_end_date = none → is_subscription_active (some c) today = false) ∧
    (∀ s, c.subscription_end_date = some s → parseDateStrptime s = none →
      parseDateIso s = none → is_subscription_active (some c) today = false) ∧
    (∀ s d, c.subscription_end_date = some s → parseDateStrptime s = some d →
      is_subscription_active (some c) today = decide (today ≤ d)) ∧
    (∀ s d, c.subscription_end_date = some s → parseDateStrptime s = none →
      parseDateIso s = some d →
      is_subscription_active (some c) today = decide (today ≤ d)) ∧
    (∀ s d, c.subscription_end_date = some s → parseDateStrptime s = some d → d < today →
      is_subscription_active (some c) today = false) ∧
    (∀ s d, c.subscription_end_date = some s → parseDateStrptime s = some d → d = today →
      is_subscription_active (some c) today = true) := by
  refine ⟨rfl, ?_, ?_, ?_, ?_, ?_, ?_⟩
  · intro h
    simp [is_subscription_active, h]
  · intro s hs h1 h2
    by_cases he : s = "" <;> simp [is_subscription_active, hs, he, h1, h2]
  · intro s d hs h1
    have hne : ¬ s = "" := by
      intro he
      subst he
      exact Option.noConfusion ((rfl : parseDateStrptime "" = none).symm.trans h1)
    simp [is_subscription_active, hs, hne, h1]
  · intro s d hs h1 h2
    have hne : ¬ s = "" := by
      intro he
      subst he
      exact Option.noConfusion ((rfl : parseDateIso "" = none).symm.trans h2)
    simp [is_subscription_active, hs, hne, h1, h2]
  · intro s d hs h1 hlt
    have hne : ¬ s = "" := by
      intro he
      subst he
      exact Option.noConfusion ((rfl : parseDateStrptime "" = none).symm.trans h1)
    simp only [is_subscription_active, hs, hne, h1, if_neg hne]
    have hnle : ¬ (today ≤ d) := by omega
    simp [hnle]
  · intro s d hs h1 heq
    have hne : ¬ s = "" := by
      intro he
      subst he
      exact Option.noConfusion ((rfl : parseDateStrptime "" = none).symm.trans h1)
    simp only [is_subscription_active, hs, hne, h1, if_neg hne]
    have hle : today ≤ d := by omega
    simp [hle]

/-- A customer whose stored subscription end date is the given text, for
the C9 witness. -/
def subCust (s : String) : CustomerRow :=
  { id := 1, phone_number := "0501234567", name := none, email := none,
    business_name := none, tz_id := none, owner_age := none, gender := none,
    subscription_start_date := none, subscription_end_date := some s,
    is_active := true, created_at := 0, updated_at := 0 }

/-- **C9, witness**: with today = 2026-10-12 (day 20738), an end date equal
to today is active and an end date of the previous day is inactive. -/
theorem c9_witness :
    parseDateStrptime "2026-10-12" = some 20738 ∧
    parseDateStrptime "2026-10-11" = some 20737 ∧
    is_subscription_active (some (subCust "2026-10-12")) 20738 = true ∧
    is_subscription_active (some (subCust "2026-10-11")) 20738 = false :=
  ⟨by decide, by decide,
   (c9_subscription_inclusive (subCust "2026-10-12") 20738).2.2.2.2.2.2
     "2026-10-12" 20738 rfl (by decide) (by decide),
   (c9_subscription_inclusive (subCust "2026-10-11") 20738).2.2.2.2.2.1
     "2026-10-11" 20737 rfl (by decide) (by decide)⟩

/-! ### C8 -/

/-- The `(customer, phone)` match used by `upsert_contact`'s SELECT (for a
non-null phone argument). -/
def contactMatches (cid : Nat) (phone : String) (r : ContactRow) : Bool :=
  r.customer_id == cid && sqlEqOpt r.phone (some phone)

/-- The field-merge (`COALESCE(new, old)`) `upsert_contact` applies to an
existing row, plus the `updated_at` stamp. -/
def mergeContact (name tz business email notes : Option String) (now : Nat)
    (r : ContactRow) : ContactRow :=
  { r with name := name <|> r.name, tz_id := tz <|> r.tz_id,
           business_name := business <|> r.business_name, email := email <|> r.email,
           notes := notes <|> r.notes, updated_at := now }

/-- The row `upsert_contact` inserts when no `(customer, phone)` match
exists. -/
def newContactRow (db : DB) (cid : Nat)
    (phone name tz business email notes : Option String) (now : Nat) : ContactRow :=
  { id := db.nextContactId, customer_id := cid, name := name, phone := phone,
    email := email, tz_id := tz, business_name := business, notes := notes,
    created_at := now, updated_at := now }

theorem upsert_contact_insert (db : DB) (cid : Nat) (p : String)
    (name tz business email notes : Option String) (now : Nat)
    (h : db.contacts.find? (contactMatches cid p) = none) :
    upsert_contact db cid (some p) name tz business email notes now =
      ({ db with
         contacts := db.contacts
           ++ [newContactRow db cid (some p) name tz business email notes now]
         nextContactId := db.nextContactId + 1 }, db.nextContactId) := by
  have h' : db.contacts.find?
      (fun r => r.customer_id == cid && sqlEqOpt r.phone (some p)) = none := h
  unfold upsert_contact newContactRow
  rw [h']

theorem upsert_contact_update (db : DB) (cid : Nat) (p : String)
    (name tz business email notes : Option String) (now : Nat) (r0 : ContactRow)
    (h : db.contacts.find? (contactMatches cid p) = some r0) :
    upsert_contact db cid (some p) name tz business email notes now =
      ({ db with contacts := db.contacts.map (fun r =>
          if r.id == r0.id then mergeContact name tz business email notes now r else r) },
       r0.id) := by
  have h' : db.contacts.find?
      (fun r => r.customer_id == cid && sqlEqOpt r.phone (some p)) = some r0 := h
  unfold upsert_contact mergeContact
  rw [h']

theorem contactMatches_merge (cid : Nat) (p : String)
    (name tz business email notes : Option String) (now : Nat) (r : ContactRow) :
    contactMatches cid p (mergeContact name tz business email notes now r)
      = contactMatches cid p r := rfl

theorem contactMatches_mergeIf (cid : Nat) (p : String) (rid : Nat)
    (name tz business email notes : Option String) (now : Nat) (r : ContactRow) :
    contactMatches cid p
        (if r.id == rid then mergeContact name tz business email notes now r else r)
      = contactMatches cid p r := by
  by_cases h : r.id == rid <;> simp [h, contactMatches_merge]

theorem filter_eq_singleton_of_find? {α : Type} (p : α → Bool) (l : List α) (a : α)
    (hf : l.find? p = some a) (hlen : (l.filter p).length ≤ 1) : l.filter p = [a] := by
  have hmem : a ∈ l.filter p :=
    List.mem_filter.mpr ⟨List.mem_of_find?_eq_some hf, List.find?_some hf⟩
  have hne : l.filter p ≠ [] := List.ne_nil_of_mem hmem
  have h1 : (l.filter p).length = 1 := by
    have := List.length_pos.mpr hne
    omega
  obtain ⟨b, hb⟩ := List.length_eq_one.mp h1
  rw [hb] at hmem ⊢
  have hab : a = b := by simpa using hmem
  rw [hab]

/-- The per-row data of a Contact other than the update timestamp, used to
state idempotence of `upsert_contact`. -/
def contactData (r : ContactRow) :
    Nat × Nat × Option String × Option String × Option String × Option String ×
      Option String × Option String × Nat :=
  (r.id, r.customer_id, r.name, r.phone, r.email, r.tz_id, r.business_name, r.notes,
   r.created_at)

/-- One invocation of `upsert_contact` with all-non-null field arguments. -/
def upsertOnce (db : DB) (cid : Nat) (p nm tzv bs em nt : String) (now : Nat) : DB :=
  (upsert_contact db cid (some p) (some nm) (some tzv) (some bs) (some em)
    (some nt) now).1

theorem upsert_once_spec (db : DB) (cid : Nat) (p nm tzv bs em nt : String) (now : Nat)
    (hlen : (db.contacts.filter (contactMatches cid p)).length ≤ 1) :
    ∃ row,
      (upsertOnce db cid p nm tzv bs em nt now).contacts.filter (contactMatches cid p)
          = [row] ∧
      (upsertOnce db cid p nm tzv bs em nt now).contacts.find? (contactMatches cid p)
          = some row ∧
      row.name = some nm ∧ row.tz_id = some tzv ∧ row.business_name = some bs ∧
      row.email = some em ∧ row.notes = some nt ∧
      (∀ r0, db.contacts.find? (contactMatches cid p) = some r0 →
        row = mergeContact (some nm) (some tzv) (some bs) (some em) (some nt) now r0) := by
  have hpres : ∀ (rid : Nat) (t : Nat) (r : ContactRow),
      contactMatches cid p
          (if r.id == rid then
            mergeContact (some nm) (some tzv) (some bs) (some em) (some nt) t r
          else r)
        = contactMatches cid p r :=
    fun rid t r => contactMatches_mergeIf cid p rid _ _ _ _ _ t r
  cases hf : db.contacts.find? (contactMatches cid p) with
  | none =>
    refine ⟨newContactRow db cid (some p) (some nm) (some tzv) (some bs) (some em)
      (some nt) now, ?_, ?_, rfl, rfl, rfl, rfl, rfl, ?_⟩
    · unfold upsertOnce
      rw [upsert_contact_insert db cid p _ _ _ _ _ now hf]
      simp only
      rw [List.filter_append,
        List.filter_eq_nil_iff.mpr (fun a ha => by simpa using List.find?_eq_none.mp hf a ha)]
      simp [contactMatches, newContactRow, sqlEqOpt]
    · unfold upsertOnce
      rw [upsert_contact_insert db cid p _ _ _ _ _ now hf]
      simp only
      rw [find?_append_none _ _ _ hf]
      simp [List.find?, contactMatches, newContactRow, sqlEqOpt]
    · intro r0 h0
      exact Option.noConfusion h0
  | some r0 =>
    have hfilter : db.contacts.filter (contactMatches cid p) = [r0] :=
      filter_eq_singleton_of_find? _ _ _ hf hlen
    refine ⟨mergeContact (some nm) (some tzv) (some bs) (some em) (some nt) now r0,
      ?_, ?_, rfl, rfl, rfl, rfl, rfl, ?_⟩
    · unfold upsertOnce
      rw [upsert_contact_update db cid p _ _ _ _ _ now r0 hf]
      simp only
      rw [filter_map_pres _ _ _ (hpres r0.id now), hfilter]
      simp only [List.map]
      rw [if_pos (by simp)]
    · unfold upsertOnce
      rw [upsert_contact_update db cid p _ _ _ _ _ now r0 hf]
      simp only
      rw [find?_map_pres _ _ _ (hpres r0.id now), hf]
      simp only [Option.map_some']
      rw [if_pos (by simp)]
    · intro r1 h1
      cases h1
      rfl

/-- **C8.**  `upsert_contact`: (a) with no `(customer, phone)` match a new
row with exactly the given fields is inserted; (b) with an existing match
the row is field-merged — `COALESCE` takes the new value for non-null
inputs and keeps the old value for null inputs — leaving the first match
equal to `mergeContact` of the old row; and (c) it is idempotent: starting
from a store with at most one match (the `(customer, phone)` UNIQUE
constraint's invariant), two invocations with identical non-null
arguments leave exactly one matching Contact row after each call, whose
fields apart from the update timestamp are the same after the second call
as after the first. -/
theorem c8_upsert_idempotent (db : DB) (cid : Nat) (p : String)
    (name tz business email notes : Option String)
    (nm tzv bs em nt : String) (now now' : Nat) :
    (db.contacts.find? (contactMatches cid p) = none →
      (upsert_contact db cid (some p) name tz business email notes now).1.contacts
        = db.contacts ++ [newContactRow db cid (some p) name tz business email notes now]) ∧
    (∀ r0, db.contacts.find? (contactMatches cid p) = some r0 →
      (upsert_contact db cid (some p) name tz business email notes now).1.contacts.find?
          (contactMatches cid p)
        = some (mergeContact name tz business email notes now r0)) ∧
    (∀ (r1 : ContactRow) (v : String) (o : Option String),
      (mergeContact (some v) tz business email notes now r1).name = some v ∧
      (mergeContact none tz business email notes now r1).name = r1.name ∧
      ((some v : Option String) <|> o) = some v ∧ ((none : Option String) <|> o) = o) ∧
    ((db.contacts.filter (contactMatches cid p)).length ≤ 1 →
      ((upsertOnce db cid p nm tzv bs em nt now).contacts.filter
          (contactMatches cid p)).length = 1 ∧
      ((upsertOnce (upsertOnce db cid p nm tzv bs em nt now) cid p nm tzv bs em nt
          now').contacts.filter (contactMatches cid p)).length = 1 ∧
      ((upsertOnce db cid p nm tzv bs em nt now).contacts.filter
          (contactMatches cid p)).map contactData
        = ((upsertOnce (upsertOnce db cid p nm tzv bs em nt now) cid p nm tzv bs em nt
            now').contacts.filter (contactMatches cid p)).map contactData) := by
  have hpres : ∀ (rid : Nat) (t : Nat) (r : ContactRow),
      contactMatches cid p
          (if r.id == rid then mergeContact name tz business email notes t r else r)
        = contactMatches cid p r :=
    fun rid t r => contactMatches_mergeIf cid p rid _ _ _ _ _ t r
  refine ⟨?_, ?_, ?_, ?_⟩
  · intro h
    rw [upsert_contact_insert db cid p name tz business email notes now h]
  · intro r0 h
    rw [upsert_contact_update db cid p name tz business email notes now r0 h]
    simp only
    rw [find?_map_pres _ _ _ (hpres r0.id now), h]
    simp only [Option.map_some']
    rw [if_pos (by simp)]
  · intro r1 v o
    exact ⟨rfl, rfl, rfl, rfl⟩
  · intro hlen
    obtain ⟨row1, hfil1, hfind1, hn1, ht1, hb1, he1, hnt1, -⟩ :=
      upsert_once_spec db cid p nm tzv bs em nt now hlen
    have hlen1 : ((upsertOnce db cid p nm tzv bs em nt now).contacts.filter
        (contactMatches cid p)).length ≤ 1 := by
      rw [hfil1]
      simp
    obtain ⟨row2, hfil2, -, -, -, -, -, -, hmerge2⟩ :=
      upsert_once_spec (upsertOnce db cid p nm tzv bs em nt now) cid p nm tzv bs em nt
        now' hlen1
    have hrow2 : row2 = mergeContact (some nm) (some tzv) (some bs) (some em) (some nt)
        now' row1 := hmerge2 row1 hfind1
    refine ⟨by rw [hfil1]; rfl, by rw [hfil2]; rfl, ?_⟩
    rw [hfil1, hfil2, hrow2]
    simp only [List.map]
    have : contactData (mergeContact (some nm) (some tzv) (some bs) (some em) (some nt)
        now' row1) = contactData row1 := by
      simp [contactData, mergeContact, hn1, ht1, hb1, he1, hnt1]
    rw [this]

/-- **C8, witness**: inserting then re-upserting a concrete contact leaves
exactly one row with unchanged data fields. -/
theorem c8_witness :
    ((emptyDB.contacts.filter (contactMatches 7 "0529876543")).length ≤ 1) ∧
    ((upsertOnce emptyDB 7 "0529876543" "dana" "111" "biz" "a@b" "note" 1).contacts.filter
        (contactMatches 7 "0529876543")).length = 1 ∧
    ((upsertOnce (upsertOnce emptyDB 7 "0529876543" "dana" "111" "biz" "a@b" "note" 1)
        7 "0529876543" "dana" "111" "biz" "a@b" "note" 2).contacts.filter
        (contactMatches 7 "0529876543")).length = 1 ∧
    ((upsertOnce emptyDB 7 "0529876543" "dana" "111" "biz" "a@b" "note" 1).contacts.filter
        (contactMatches 7 "0529876543")).map contactData
      = ((upsertOnce (upsertOnce emptyDB 7 "0529876543" "dana" "111" "biz" "a@b" "note" 1)
          7 "0529876543" "dana" "111" "biz" "a@b" "note" 2).contacts.filter
          (contactMatches 7 "0529876543")).map contactData :=
  ⟨by decide,
   ((c8_upsert_idempotent emptyDB 7 "0529876543" none none none none none
      "dana" "111" "biz" "a@b" "note" 1 2).2.2.2 (by decide)).1,
   ((c8_upsert_idempotent emptyDB 7 "0529876543" none none none none none
      "dana" "111" "biz" "a@b" "note" 1 2).2.2.2 (by decide)).2.1,
   ((c8_upsert_idempotent emptyDB 7 "0529876543" none none none none none
      "dana" "111" "biz" "a@b" "note" 1 2).2.2.2 (by decide)).2.2⟩

/-! ### C7 -/

/-- The named inputs of the birth-year steps: the PBX answers the prompt
`child_birth_year_j` with a parameter of the same name. -/
def yearPairs : Nat → List String → List (String × String)
  | _, [] => []
  | j, y :: t => ("child_birth_year_" ++ toString j, y) :: yearPairs (j + 1) t

/-- The decision trace the birth-year steps emit when the cursor is at `i`
and `r` inputs remain: prompts for children `i+1`, `i+2`, … in strictly
increasing cursor order, then the first spouse-workplaces prompt. -/
def expectedYearMenus : Int → Nat → List (Option Menu)
  | _, 0 => []
  | i, r + 1 =>
    if r = 0 then [some (ask_spouse_workplaces 1)]
    else some (Menu.childBirthYear (i + 1)) :: expectedYearMenus (i + 1) r

/-- Is a decision a birth-year prompt? -/
def isBirthYearPrompt : Option Menu → Bool
  | some (Menu.childBirthYear _) => true
  | _ => false

/-- The state after `handle_user_input`'s two unconditional effects: the
input stored in the session and merged into the Call row's JSON bag. -/
def inputStoredState (env : Env) (st : SrvState) (cid name v : String) : SrvState :=
  { st with
    sessions := dset st.sessions cid (dset (sessionOf st cid) name (SVal.s v))
    db := (update_call_data st.db cid [(name, some v)] env.now).1 }

/-- The session `process_children_count` leaves: count recorded, cursor
reset to 1. -/
def countSession (st : SrvState) (cid : String) (n : Int) : Dict SVal :=
  dset (dset (sessionOf st cid) "children_count" (SVal.i n)) "current_child" (SVal.i 1)

/-- The session after an accepted birth year when more years remain:
year appended, cursor advanced to `i + 1`. -/
def yearSessionNext (st : SrvState) (cid : String) (yi i : Int) : Dict SVal :=
  dset (dset (sessionOf st cid) "children_birth_years" (SVal.il (sGetYears (sessionOf st cid) ++ [yi]))) "current_child" (SVal.i (i + 1))

/-- The session after the last accepted birth year: year appended, cursor
untouched. -/
def yearSessionLast (st : SrvState) (cid : String) (yi : Int) : Dict SVal :=
  dset (sessionOf st cid) "children_birth_years" (SVal.il (sGetYears (sessionOf st cid) ++ [yi]))

/-- The server state after `process_children_count` records an accepted
count. -/
def stateAfterCount (st : SrvState) (cid : String) (n : Int) : SrvState :=
  { st with sessions := dset st.sessions cid (countSession st cid n) }

/-- The server state after an accepted birth year with more years to
collect. -/
def stateAfterYearNext (st : SrvState) (cid : String) (yi i : Int) : SrvState :=
  { st with sessions := dset st.sessions cid (yearSessionNext st cid yi i) }

/-- The server state after the last accepted birth year. -/
def stateAfterYearLast (st : SrvState) (cid : String) (yi : Int) : SrvState :=
  { st with sessions := dset st.sessions cid (yearSessionLast st cid yi) }

theorem pyStartswith_append (pre s : String) : pyStartswith (pre ++ s) pre = true := by
  unfold pyStartswith
  rw [List.isPrefixOf_iff_prefix]
  show pre.toList <+: (pre ++ s).data
  rw [String.data_append]
  exact List.prefix_append _ _

theorem yearPairs_length (j : Nat) (ys : List String) :
    (yearPairs j ys).length = ys.length := by
  induction ys generalizing j with
  | nil => rfl
  | cons y t ih => simp [yearPairs, ih]

theorem yearPairs_mem (j : Nat) (ys : List String) :
    ∀ q ∈ yearPairs j ys, pyStartswith q.1 "child_birth_year_" = true ∧ q.2 ∈ ys := by
  induction ys generalizing j with
  | nil => intro q hq; exact absurd hq (by simp [yearPairs])
  | cons y t ih =>
    intro q hq
    rw [yearPairs] at hq
    rcases List.mem_cons.mp hq with h | h
    · subst h
      exact ⟨pyStartswith_append _ _, List.mem_cons_self _ _⟩
    · obtain ⟨h1, h2⟩ := ih (j + 1) q h
      exact ⟨h1, List.mem_cons_of_mem _ h2⟩

theorem handle_input_birth_year (env : Env) (st : SrvState) (cid name v : String)
    (h : pyStartswith name "child_birth_year_" = true) :
    handle_user_input env st cid name v =
      process_child_birth_year env (inputStoredState env st cid name v) cid name v := by
  have h1 : name ≠ "newCustomer" := by rintro rfl; exact absurd h (by decide)
  have h2 : name ≠ "newCustomerID" := by rintro rfl; exact absurd h (by decide)
  have h3 : name ≠ "renewSubscription" := by rintro rfl; exact absurd h (by decide)
  have h4 : name ≠ "mainMenu" := by rintro rfl; exact absurd h (by decide)
  have h5 : name ≠ "ownerAge" := by rintro rfl; exact absurd h (by decide)
  have h6 : name ≠ "gender" := by rintro rfl; exact absurd h (by decide)
  have h7 : name ≠ "numChildren" := by rintro rfl; exact absurd h (by decide)
  unfold handle_user_input inputStoredState
  rw [if_neg h1, if_neg h2, if_neg h3, if_neg h4, if_neg h5, if_neg h6, if_neg h7, if_pos h]

theorem handle_input_numChildren (env : Env) (st : SrvState) (cid v : String) :
    handle_user_input env st cid "numChildren" v =
      process_children_count (inputStoredState env st cid "numChildren" v) cid v := by
  unfold handle_user_input inputStoredState
  rw [if_neg (by decide), if_neg (by decide), if_neg (by decide), if_neg (by decide),
    if_neg (by decide), if_neg (by decide), if_pos rfl]

theorem sessionOf_inputStored (env : Env) (st : SrvState) (cid name v : String) :
    sessionOf (inputStoredState env st cid name v) cid
      = dset (sessionOf st cid) name (SVal.s v) := by
  unfold inputStoredState sessionOf
  simp only
  rw [dget_dset, if_pos rfl]
  rfl

theorem sessionOf_setSession (st : SrvState) (cid : String) (d : Dict SVal) :
    sessionOf { st with sessions := dset st.sessions cid d } cid = d := by
  unfold sessionOf
  simp only
  rw [dget_dset, if_pos rfl]
  rfl

theorem process_children_count_pos (st : SrvState) (cid sn : String) (n : Int)
    (hn : pyInt sn = some n) (h1 : 1 ≤ n) (h20 : n ≤ 20) :
    process_children_count st cid sn =
      (stateAfterCount st cid n, some (Menu.childBirthYear 1)) := by
  unfold process_children_count stateAfterCount countSession
  simp only [hn]
  rw [if_neg (by omega), if_neg (by omega)]

theorem process_children_count_zero (st : SrvState) (cid sn : String)
    (hn : pyInt sn = some 0) :
    process_children_count st cid sn =
      (stateAfterCount st cid 0, some (ask_spouse_workplaces 1)) := by
  unfold process_children_count stateAfterCount countSession
  simp only [hn]
  rw [if_neg (by omega)]
  simp

theorem process_child_birth_year_step (env : Env) (st : SrvState) (cid name y : String)
    (yi i n : Int)
    (hy : pyInt y = some yi) (hr1 : env.year - 50 ≤ yi) (hr2 : yi ≤ env.year)
    (hcur : dget (sessionOf st cid) "current_child" = some (SVal.i i))
    (hcount : dget (sessionOf st cid) "children_count" = some (SVal.i n)) :
    (i < n →
      process_child_birth_year env st cid name y =
        (stateAfterYearNext st cid yi i, some (Menu.childBirthYear (i + 1)))) ∧
    (¬ i < n →
      process_child_birth_year env st cid name y =
        (stateAfterYearLast st cid yi, some (ask_spouse_workplaces 1))) := by
  have ecur : sGetInt (yearSessionLast st cid yi) "current_child" 1 = i := by
    unfold sGetInt yearSessionLast
    rw [dget_dset, if_neg (by decide), hcur]
  have ecount : sGetInt (yearSessionLast st cid yi) "children_count" 0 = n := by
    unfold sGetInt yearSessionLast
    rw [dget_dset, if_neg (by decide), hcount]
  constructor
  · intro hlt
    unfold process_child_birth_year stateAfterYearNext yearSessionNext
    simp only [hy]
    rw [if_neg (by omega)]
    have ecur' := ecur
    have ecount' := ecount
    unfold yearSessionLast at ecur' ecount'
    simp only [ecur', ecount']
    rw [if_pos hlt]
  · intro hge
    unfold process_child_birth_year stateAfterYearLast yearSessionLast
    simp only [hy]
    rw [if_neg (by omega)]
    have ecur' := ecur
    have ecount' := ecount
    unfold yearSessionLast at ecur' ecount'
    simp only [ecur', ecount']
    rw [if_neg hge]

theorem runInputs_birth_years (env : Env) (pairs : List (String × String)) :
    ∀ (st : SrvState) (cid : String) (i n : Int),
    (∀ q ∈ pairs, pyStartswith q.1 "child_birth_year_" = true ∧
      ∃ v, pyInt q.2 = some v ∧ env.year - 50 ≤ v ∧ v ≤ env.year) →
    dget (sessionOf st cid) "current_child" = some (SVal.i i) →
    dget (sessionOf st cid) "children_count" = some (SVal.i n) →
    i ≤ n →
    (pairs.length : Int) = n - i + 1 →
    (runInputs env st cid pairs).2 = expectedYearMenus i pairs.length := by
  induction pairs with
  | nil => intro st cid i n _ _ _ _ _; rfl
  | cons q t ih =>
    intro st cid i n hall hcur hcount hin hlen
    obtain ⟨hpre, v, hv, hv1, hv2⟩ := hall q (List.mem_cons_self _ _)
    have hq1a : q.1 ≠ "current_child" := by
      intro he; rw [he] at hpre; exact absurd hpre (by decide)
    have hq1b : q.1 ≠ "children_count" := by
      intro he; rw [he] at hpre; exact absurd hpre (by decide)
    simp only [runInputs]
    rw [handle_input_birth_year env st cid q.1 q.2 hpre]
    have hcur' : dget (sessionOf (inputStoredState env st cid q.1 q.2) cid) "current_child"
        = some (SVal.i i) := by
      rw [sessionOf_inputStored, dget_dset, if_neg (fun he => hq1a he.symm), hcur]
    have hcount' : dget (sessionOf (inputStoredState env st cid q.1 q.2) cid) "children_count"
        = some (SVal.i n) := by
      rw [sessionOf_inputStored, dget_dset, if_neg (fun he => hq1b he.symm), hcount]
    by_cases hlt : i < n
    · obtain hstep := (process_child_birth_year_step env _ cid q.1 q.2 v i n hv hv1 hv2
        hcur' hcount').1 hlt
      rw [hstep]
      simp only
      have htl : (t.length : Int) = n - (i + 1) + 1 := by
        simp only [List.length_cons] at hlen
        push_cast at hlen ⊢
        omega
      have htlen0 : t.length ≠ 0 := by
        intro h0
        rw [h0] at htl
        simp at htl
        omega
      have hcurN : dget (sessionOf
          (stateAfterYearNext (inputStoredState env st cid q.1 q.2) cid v i) cid)
          "current_child" = some (SVal.i (i + 1)) := by
        unfold stateAfterYearNext
        rw [sessionOf_setSession]
        unfold yearSessionNext
        rw [dget_dset, if_pos rfl]
      have hcountN : dget (sessionOf
          (stateAfterYearNext (inputStoredState env st cid q.1 q.2) cid v i) cid)
          "children_count" = some (SVal.i n) := by
        unfold stateAfterYearNext
        rw [sessionOf_setSession]
        unfold yearSessionNext
        rw [dget_dset, if_neg (by decide), dget_dset, if_neg (by decide), hcount']
      have htail := ih (stateAfterYearNext (inputStoredState env st cid q.1 q.2) cid v i)
        cid (i + 1) n
        (fun q' hq' => hall q' (List.mem_cons_of_mem _ hq'))
        hcurN hcountN (by omega) htl
      rw [htail]
      show _ = expectedYearMenus i (t.length + 1)
      rw [expectedYearMenus]
      rw [if_neg htlen0]
    · obtain hstep := (process_child_birth_year_step env _ cid q.1 q.2 v i n hv hv1 hv2
        hcur' hcount').2 hlt
      rw [hstep]
      simp only
      have htlen0 : t.length = 0 := by
        simp only [List.length_cons] at hlen
        push_cast at hlen
        omega
      have ht0 : t = [] := List.length_eq_zero.mp htlen0
      subst ht0
      show _ = expectedYearMenus i (0 + 1)
      rw [expectedYearMenus]
      rfl

theorem countP_expectedYearMenus (r : Nat) : ∀ (i : Int),
    (expectedYearMenus i r).countP isBirthYearPrompt = r - 1 := by
  induction r with
  | zero => intro i; rfl
  | succ r ih =>
    intro i
    rw [expectedYearMenus]
    by_cases h : r = 0
    · subst h
      rfl
    · rw [if_neg h]
      rw [List.countP_cons]
      rw [ih (i + 1)]
      simp [isBirthYearPrompt]
      omega

/-- **C7.**  The details sub-flow's children collection: an accepted count
`n = 0` skips straight to spouse-workplace collection with no birth-year
prompt; an out-of-range or unparsable count yields the error decision; an
accepted count `n ∈ [1, 20]` makes the whole run — the count step followed
by `n` accepted birth years — emit exactly the prompts
`child_birth_year_1, …, child_birth_year_n` (cursor strictly increasing by
one per accepted year, `n` birth-year prompts in total) and then the first
spouse-workplaces prompt; a birth year that is non-numeric or outside
`[current_year − 50, current_year]` yields the error decision that returns
to the main menu. -/
theorem c7_children_birth_years (env : Env) (st : SrvState) (cid sn : String) (n : Int)
    (ys : List String)
    (hn : pyInt sn = some n)
    (hval : ∀ y ∈ ys, ∃ v, pyInt y = some v ∧ env.year - 50 ≤ v ∧ v ≤ env.year) :
    (n = 0 →
      (handle_user_input env st cid "numChildren" sn).2 = some (ask_spouse_workplaces 1)) ∧
    ((n < 0 ∨ 20 < n) →
      (handle_user_input env st cid "numChildren" sn).2
        = some show_error_and_return_to_main) ∧
    (1 ≤ n → n ≤ 20 → (ys.length : Int) = n →
      (runInputs env st cid (("numChildren", sn) :: yearPairs 1 ys)).2
        = some (Menu.childBirthYear 1) :: expectedYearMenus 1 ys.length ∧
      (((runInputs env st cid (("numChildren", sn) :: yearPairs 1 ys)).2.countP
          isBirthYearPrompt : Int) = n)) ∧
    (∀ y v, pyInt y = some v → (v < env.year - 50 ∨ env.year < v) →
      (handle_user_input env st cid "child_birth_year_1" y).2
        = some show_error_and_return_to_main) ∧
    (∀ y, pyInt y = none →
      (handle_user_input env st cid "child_birth_year_1" y).2
        = some show_error_and_return_to_main) := by
  refine ⟨?_, ?_, ?_, ?_, ?_⟩
  · intro h0
    subst h0
    rw [handle_input_numChildren, process_children_count_zero _ _ _ hn]
  · intro hout
    rw [handle_input_numChildren]
    unfold process_children_count
    simp only [hn]
    rw [if_pos hout]
  · intro h1 h20 hlen
    have hrun : (runInputs env st cid (("numChildren", sn) :: yearPairs 1 ys)).2
        = some (Menu.childBirthYear 1) :: expectedYearMenus 1 ys.length := by
      simp only [runInputs]
      rw [handle_input_numChildren, process_children_count_pos _ _ _ n hn h1 h20]
      simp only
      have hcur0 : dget (sessionOf
          (stateAfterCount (inputStoredState env st cid "numChildren" sn) cid n) cid)
          "current_child" = some (SVal.i 1) := by
        unfold stateAfterCount
        rw [sessionOf_setSession]
        unfold countSession
        rw [dget_dset, if_pos rfl]
      have hcount0 : dget (sessionOf
          (stateAfterCount (inputStoredState env st cid "numChildren" sn) cid n) cid)
          "children_count" = some (SVal.i n) := by
        unfold stateAfterCount
        rw [sessionOf_setSession]
        unfold countSession
        rw [dget_dset, if_neg (by decide), dget_dset, if_pos rfl]
      have htail := runInputs_birth_years env (yearPairs 1 ys)
        (stateAfterCount (inputStoredState env st cid "numChildren" sn) cid n) cid 1 n
        (fun q hq => by
          obtain ⟨hq1, hq2⟩ := yearPairs_mem 1 ys q hq
          exact ⟨hq1, hval q.2 hq2⟩)
        hcur0 hcount0 h1
        (by rw [yearPairs_length]; omega)
      rw [htail, yearPairs_length]
    refine ⟨hrun, ?_⟩
    rw [hrun]
    rw [List.countP_cons]
    rw [countP_expectedYearMenus]
    have hne : ys.length ≠ 0 := by
      intro h0
      rw [h0] at hlen
      simp at hlen
      omega
    simp [isBirthYearPrompt]
    omega
  · intro y v hy hout
    rw [handle_input_birth_year env st cid _ y (by decide)]
    unfold process_child_birth_year
    simp only [hy]
    rw [if_pos (by omega)]
  · intro y hy
    rw [handle_input_birth_year env st cid _ y (by decide)]
    unfold process_child_birth_year
    simp only [hy]

/-- **C7, witness**: a concrete run with count 2 and two valid years emits
prompts for children 1 and 2 and then the spouse prompt; count 0 goes
straight to the spouse prompt. -/
theorem c7_witness :
    pyInt "2" = some 2 ∧
    (∀ y ∈ ["2010", "2012"], ∃ v, pyInt y = some v ∧
      testEnv.year - 50 ≤ v ∧ v ≤ testEnv.year) ∧
    (runInputs testEnv plainState "c1" (("numChildren", "2") :: yearPairs 1 ["2010", "2012"])).2
      = some (Menu.childBirthYear 1) :: expectedYearMenus 1 2 ∧
    (handle_user_input testEnv plainState "c1" "numChildren" "0").2
      = some (ask_spouse_workplaces 1) :=
  ⟨rfl, by decide,
   ((c7_children_birth_years testEnv plainState "c1" "2" 2 ["2010", "2012"] rfl
      (by decide)).2.2.1 (by decide) (by decide) (by decide)).1,
   (c7_children_birth_years testEnv plainState "c1" "0" 0 [] rfl
      (by simp)).1 rfl⟩

end IVR
